import Mathlib

/-!
Verification of the asynchronous transcoding pipeline driver implemented in
`tutorials/simple_5_transcode_opaque_async_vppresize_3dlut/src/simple_5_transcode_opaque_async_vppresize_3dlut.cpp`.

The development shallowly embeds the parts of `main` that the verified
properties are about:

* the circular task pool (`taskPoolSize = AsyncDepth`, lines 362-373) and the
  driver's free-task / sync-oldest discipline shared by Stages 1-4
  (lines 395-495, 500-587, 596-664, 673-708) and the final flush Stage 5
  (lines 717-734);
* the per-stage retry loops around `RunFrameVPPAsync` / `EncodeFrameAsync`
  (lines 441-454, 466-482) and the status dispatch that follows them
  (lines 456-464, 484-488, 493-495);
* the surface-pool acquire and its `MSDK_CHECK_ERROR` handling
  (lines 424-427);
* the mandatory-option validation at the top of `main` (lines 55-66);
* a deterministic small-step machine for the whole five-stage control flow,
  used for termination and for the concrete three-frame scenario.

Helper functions that live in `common_utils` (outside this repository's
source tree), such as `GetFreeTaskIndex` and `GetFreeSurfaceIndex`, and the
numeric values of the `mfxStatus` codes, are modelled from the spec's
description of their contracts (spec sections 4.1, 4.2 and 6) and from the
way `main` consumes them.
-/

namespace MediaSDK

/-! ### mfxStatus codes

Modelled from the spec: statuses are integers, `MFX_ERR_NONE = 0` is success,
negative codes are errors (the spec's Fatal / NeedMoreInput / NeedMoreOutput
outcomes), positive codes are warnings (the spec's Busy / TimedOut outcomes).
The concrete numeric values follow the MFX API the source is written
against; `main` only compares them for equality and for sign. -/

def MFX_ERR_NONE : Int := 0
def MFX_ERR_MEMORY_ALLOC : Int := -4
def MFX_ERR_NOT_ENOUGH_BUFFER : Int := -5
def MFX_ERR_NOT_FOUND : Int := -9
def MFX_ERR_MORE_DATA : Int := -10
def MFX_ERR_MORE_SURFACE : Int := -11
def MFX_WRN_IN_EXECUTION : Int := 1
def MFX_WRN_DEVICE_BUSY : Int := 2

/-- The bounded wait passed to every `SyncOperation` call in `main`
(lines 399, 504, 600, 677, 718). -/
def syncWaitTimeoutMs : Nat := 60000

/-! ### Task slots

A `Task` models one entry of the `pTasks` pool (lines 362-373): a completion
token (`syncp`, absent while no encode operation is outstanding in the slot)
and the byte-range markers of its bitstream buffer.  The opaque
`mfxSyncPoint` values handed out by the accelerator are modelled as the
sequence number of the encode submission that produced them; the
accelerator's asynchronous write of the encoded bytes into the task's buffer
is collapsed to submission time, so an occupied slot carries a non-zero
`DataLength`. -/

structure Task where
  syncp : Option Nat
  dataLength : Nat
  dataOffset : Nat
deriving DecidableEq

/-- A recycled (or never used) task slot: token cleared, byte markers zero,
exactly the state produced by lines 405-407 and by the pool construction at
lines 366-373. -/
def Task.free : Task := ⟨none, 0, 0⟩

/-- The slot contents after the encode submission numbered `id` was issued
into it (line 469 sets `pTasks[nTaskIdx].syncp`; the accelerator fills the
buffer before the token is waited on). -/
def Task.occupied (id : Nat) : Task := ⟨some id, id + 1, 0⟩

/-- Modelled from the spec (section 4.2 `acquireFreeTask`) and the tutorial
helper `GetFreeTaskIndex` used at lines 396, 501, 597, 674 (the helper's
definition lives in `common_utils`, outside this source tree): scan the pool
for the first task whose completion token is unset; `none` stands for the
helper's `MFX_ERR_NOT_FOUND` return. -/
def GetFreeTaskIndex : List Task → Option Nat
  | [] => none
  | t :: ts =>
    if t.syncp.isNone then some 0 else (GetFreeTaskIndex ts).map (· + 1)

/-- Number of task slots whose completion token is set, i.e. the number of
outstanding encode operations. -/
def countOutstanding (tasks : List Task) : Nat :=
  tasks.countP (fun t => t.syncp.isSome)

/-! ### The task-pool view of the driver

`PoolState` captures exactly the state `main` threads through its five
stages as far as the task pool is concerned: the pool itself, the FIFO
head `nFirstSyncTask`, the running frame counter `nFrame`, the sink
(sequence of encoded frames written by `WriteBitStreamFrame`, identified by
their submission numbers) and the ghost counter `nextId` that numbers encode
submissions. -/

structure PoolState where
  tasks : List Task
  nFirstSyncTask : Nat
  nextId : Nat
  sink : List Nat
  nFrame : Nat
deriving DecidableEq

/-- The pool right after construction (lines 362-373): `d = taskPoolSize =
AsyncDepth` zeroed slots, FIFO head at 0, nothing written. -/
def initPool (d : Nat) : PoolState :=
  { tasks := List.replicate d Task.free
    nFirstSyncTask := 0
    nextId := 0
    sink := []
    nFrame := 0 }

/-- One sync-and-flush of the oldest outstanding task, mirroring lines
399-410 (and their copies at 504-515, 600-611, 677-688, 718-729): wait on
`pTasks[nFirstSyncTask].syncp`, write its bitstream to the sink, clear the
token, reset the byte markers, advance the FIFO head circularly, count the
frame. -/
def flushHead (s : PoolState) : PoolState :=
  let t := s.tasks.getD s.nFirstSyncTask Task.free
  { tasks := s.tasks.set s.nFirstSyncTask Task.free
    nFirstSyncTask := (s.nFirstSyncTask + 1) % s.tasks.length
    nextId := s.nextId
    sink := s.sink ++ t.syncp.toList
    nFrame := s.nFrame + 1 }

/-- Issue an encode operation into slot `i` (line 469): the accelerator
returns a fresh completion token, modelled by the submission counter. -/
def issueEncode (s : PoolState) (i : Nat) : PoolState :=
  { s with
    tasks := s.tasks.set i (Task.occupied s.nextId)
    nextId := s.nextId + 1 }

/-- The outcome of one driver iteration as far as the task pool is
concerned.  `ready` means the decode-transform-encode chain of the iteration
ended with a successful `EncodeFrameAsync` into the claimed slot (sync point
produced); `busy` and `needMoreInput` cover every path on which no token is
produced: a device-busy retry, decode or VPP asking for more input
(`MFX_ERR_MORE_DATA` at lines 419, 457), or the encoder buffering the frame
(`MFX_ERR_MORE_DATA` at line 484). -/
inductive StageOutcome where
  | ready
  | busy
  | needMoreInput
deriving DecidableEq

/-- One iteration of the Stage 1-4 loop pattern (lines 395-414 and the else
branch): if no task slot is free, sync and flush the oldest outstanding
task; otherwise the iteration claims the first free slot and sets its token
exactly when the stage chain reports `ready`. -/
def driverTick (s : PoolState) (o : StageOutcome) : PoolState :=
  match GetFreeTaskIndex s.tasks with
  | none => flushHead s
  | some i =>
    match o with
    | .ready => issueEncode s i
    | .busy => s
    | .needMoreInput => s

/-- Run the driver over a sequence of per-iteration stage outcomes. -/
def runScript : List StageOutcome → PoolState → PoolState
  | [], s => s
  | o :: os, s => runScript os (driverTick s o)

/-- Stage 5 (lines 717-734): flush remaining tasks in FIFO order while the
head slot has a completion token.  The fuel argument only bounds the
recursion; `tasks.length` iterations always suffice because each flush
clears one token. -/
def flushLoop : Nat → PoolState → PoolState
  | 0, s => s
  | fuel + 1, s =>
    if (s.tasks.getD s.nFirstSyncTask Task.free).syncp.isSome then
      flushLoop fuel (flushHead s)
    else s

/-- Stage 5 entry point: flush all remaining outstanding tasks. -/
def flushRemaining (s : PoolState) : PoolState :=
  flushLoop s.tasks.length s

/-! ### Surface pool acquire (claim C3) -/

/-- Modelled from the spec (section 4.1 `acquireFree`) and the tutorial
helper `GetFreeSurfaceIndex` used at lines 425, 438, 524, 536, 617 (the
helper's definition lives in `common_utils`, outside this source tree):
scan the surface pool for an entry not owned by the accelerator.  `true`
marks an owned (locked) entry. -/
def freeSurfaceScan : List Bool → Option Nat
  | [] => none
  | b :: rest => if b then (freeSurfaceScan rest).map (· + 1) else some 0

/-- The helper's actual interface: the free index, or `MFX_ERR_NOT_FOUND`
when every entry is owned.  The scan reads the pool and changes nothing. -/
def GetFreeSurfaceIndex (locked : List Bool) : Int :=
  match freeSurfaceScan locked with
  | some i => Int.ofNat i
  | none => MFX_ERR_NOT_FOUND

/-- What the driver does with a surface-acquire result. -/
inductive SurfaceAcquire where
  | abort (code : Int)
  | use (idx : Int)
deriving DecidableEq

/-- Mirrors lines 424-427 (and the copies at 438-439, 524-525, 536-537,
617-618): `nIndex = GetFreeSurfaceIndex(...)` followed by
`MSDK_CHECK_ERROR(MFX_ERR_NOT_FOUND, nIndex, MFX_ERR_MEMORY_ALLOC)`, which
returns `MFX_ERR_MEMORY_ALLOC` from `main` when the scan found nothing. -/
def driverAcquireSurface (locked : List Bool) : SurfaceAcquire :=
  let nIndex := GetFreeSurfaceIndex locked
  if nIndex = MFX_ERR_NOT_FOUND then .abort MFX_ERR_MEMORY_ALLOC
  else .use nIndex

/-! ### Sync-and-flush failure semantics (claim C5) -/

/-- Mirrors lines 399-410 with the `SyncOperation` result made explicit:
`MSDK_CHECK_RESULT(sts, MFX_ERR_NONE, sts)` returns `sts` from `main` the
moment the wait does not report success, so a timed-out wait
(`MFX_WRN_IN_EXECUTION` after `syncWaitTimeoutMs`) aborts before anything
else happens; the sink keeps exactly the frames flushed so far.  On success
the flush proceeds as `flushHead`. -/
def syncFlushOldest (syncSts : Int) (s : PoolState) :
    Except (Int × List Nat) PoolState :=
  if syncSts ≠ MFX_ERR_NONE then .error (syncSts, s.sink)
  else .ok (flushHead s)

/-! ### The stage retry loops (claims C6 and C7) -/

/-- One response of an asynchronous submit call: the returned status and
whether a sync point was produced. -/
structure SubmitResp where
  sts : Int
  syncp : Bool
deriving DecidableEq

/-- Mirrors the `for (;;)` retry loop around `RunFrameVPPAsync`
(lines 441-454): repeat while the call returns a warning with no output
(sleeping one millisecond when the warning is `MFX_WRN_DEVICE_BUSY`); a
warning with output is success; anything else leaves the loop with that
status.  The `Nat` argument counts retries already performed; the result is
`none` when the response script ran out before the loop settled. -/
def vppRetryLoop : List SubmitResp → Nat → Option (Int × Bool × Nat)
  | [], _ => none
  | r :: rest, n =>
    if MFX_ERR_NONE < r.sts ∧ r.syncp = false then vppRetryLoop rest (n + 1)
    else if MFX_ERR_NONE < r.sts ∧ r.syncp = true then
      some (MFX_ERR_NONE, true, n)
    else some (r.sts, r.syncp, n)

/-- Mirrors the `for (;;)` retry loop around `EncodeFrameAsync`
(lines 466-482), which adds an explicit `MFX_ERR_NOT_ENOUGH_BUFFER` break
to the same structure. -/
def encRetryLoop : List SubmitResp → Nat → Option (Int × Bool × Nat)
  | [], _ => none
  | r :: rest, n =>
    if MFX_ERR_NONE < r.sts ∧ r.syncp = false then encRetryLoop rest (n + 1)
    else if MFX_ERR_NONE < r.sts ∧ r.syncp = true then
      some (MFX_ERR_NONE, true, n)
    else if r.sts = MFX_ERR_NOT_ENOUGH_BUFFER then some (r.sts, r.syncp, n)
    else some (r.sts, r.syncp, n)

/-- How stage 1 dispatches on the VPP status after the retry loop. -/
inductive VppDispatch where
  | feedMoreInput
  | hardStop
  | breakError
  | proceedToEncode
deriving DecidableEq

/-- Mirrors lines 456-464: `MFX_ERR_MORE_DATA` loops back to decode another
frame; `MFX_ERR_MORE_SURFACE` breaks out of the transcoding loop (the
comment documents it as not handled for this workload); any other error
breaks via `MSDK_BREAK_ON_ERROR`; otherwise the frame proceeds to encode. -/
def vppStage1Dispatch (sts : Int) : VppDispatch :=
  if sts = MFX_ERR_MORE_DATA then .feedMoreInput
  else if sts = MFX_ERR_MORE_SURFACE then .hardStop
  else if sts < MFX_ERR_NONE then .breakError
  else .proceedToEncode

/-- Mirrors lines 493-495, leaving Stage 1: `MSDK_IGNORE_MFX_STS(sts,
MFX_ERR_MORE_DATA)` treats end-of-input as success, then
`MSDK_CHECK_RESULT(sts, MFX_ERR_NONE, sts)` prints a diagnostic and returns
`sts` from `main` for any other status.  `some code` is that diagnostic
abort; `none` means the pipeline continues into Stage 2. -/
def stage1PostLoop (sts : Int) : Option Int :=
  let sts' := if sts = MFX_ERR_MORE_DATA then MFX_ERR_NONE else sts
  if sts' ≠ MFX_ERR_NONE then some sts' else none

/-! ### Mandatory-option validation (claim C10) -/

/-- The parsed command-line values `main` validates (lines 55-66).  The
source name is empty exactly when `options.values.SourceName[0] == 0`. -/
structure CmdValues where
  Bitrate : Nat
  FrameRateN : Nat
  FrameRateD : Nat
  SourceName : String
  SinkName : String
deriving DecidableEq

/-- The externally visible actions of the prologue of `main`, in program
order: error printing (lines 56, 60, 64), opening the source file
(line 71), opening the sink file (line 77), creating and initializing the
session and accelerator (lines 87-89). -/
inductive MainAction where
  | printError (msg : String)
  | openSource
  | openSink
  | sessionSetup
deriving DecidableEq

/-- Mirrors lines 55-89 of `main`: the three mandatory-option checks run
first, each printing its message and returning `-1` immediately; only when
all pass does `main` go on to open files and initialize the session.  The
result pairs the emitted actions with `some code` when `main` returned
early. -/
def mainPrologue (v : CmdValues) : List MainAction × Option Int :=
  if v.Bitrate = 0 then
    ([.printError "error: bitrate not set (mandatory)"], some (-1))
  else if v.FrameRateN = 0 ∨ v.FrameRateD = 0 then
    ([.printError "error: framerate not set (mandatory)"], some (-1))
  else if v.SourceName = "" then
    ([.printError "error: source file name not set (mandatory)"], some (-1))
  else
    ([.openSource] ++ (if v.SinkName ≠ "" then [.openSink] else [])
      ++ [.sessionSetup], none)

end MediaSDK

namespace MediaSDK

/-! ### Loop conditions of the five stages

The `while` conditions of Stages 1-4 (lines 395, 500, 596, 673), as
predicates on the running status. -/

def stage1LoopCond (sts : Int) : Prop :=
  MFX_ERR_NONE ≤ sts ∨ sts = MFX_ERR_MORE_DATA ∨ sts = MFX_ERR_MORE_SURFACE

def stage2LoopCond (sts : Int) : Prop :=
  MFX_ERR_NONE ≤ sts ∨ sts = MFX_ERR_MORE_SURFACE

def stage3LoopCond (sts : Int) : Prop :=
  MFX_ERR_NONE ≤ sts ∨ sts = MFX_ERR_MORE_DATA ∨ sts = MFX_ERR_MORE_SURFACE

def stage4LoopCond (sts : Int) : Prop :=
  MFX_ERR_NONE ≤ sts

instance (sts : Int) : Decidable (stage1LoopCond sts) := by
  unfold stage1LoopCond; infer_instance

instance (sts : Int) : Decidable (stage2LoopCond sts) := by
  unfold stage2LoopCond; infer_instance

instance (sts : Int) : Decidable (stage3LoopCond sts) := by
  unfold stage3LoopCond; infer_instance

instance (sts : Int) : Decidable (stage4LoopCond sts) := by
  unfold stage4LoopCond; infer_instance

/-! ### Basic task-pool lemmas -/

lemma tasks_length_driverTick (s : PoolState) (o : StageOutcome) :
    (driverTick s o).tasks.length = s.tasks.length := by
  unfold driverTick
  cases h : GetFreeTaskIndex s.tasks with
  | none => simp [flushHead]
  | some i => cases o <;> simp [issueEncode]

lemma tasks_length_runScript (script : List StageOutcome) (s : PoolState) :
    (runScript script s).tasks.length = s.tasks.length := by
  induction script generalizing s with
  | nil => rfl
  | cons o os ih => rw [runScript, ih, tasks_length_driverTick]

/-- Claim C1: over every sequence of stage outcomes, the number of tasks
with a set completion token never exceeds `asyncDepth` (the pool size), and
whenever no free task slot exists the driver's iteration is exactly the
block-on-oldest-and-recycle step `flushHead`, claiming nothing. -/
theorem async_depth_bound (d : Nat) (script : List StageOutcome)
    (o : StageOutcome) :
    countOutstanding (runScript script (initPool d)).tasks ≤ d
    ∧ (GetFreeTaskIndex (runScript script (initPool d)).tasks = none →
        driverTick (runScript script (initPool d)) o
          = flushHead (runScript script (initPool d))) := by
  constructor
  · have h1 : countOutstanding (runScript script (initPool d)).tasks
        ≤ (runScript script (initPool d)).tasks.length :=
      List.countP_le_length _
    have h2 : (runScript script (initPool d)).tasks.length = d := by
      rw [tasks_length_runScript]; simp [initPool]
    omega
  · intro h
    unfold driverTick
    rw [h]

theorem async_depth_bound_witness :
    countOutstanding (runScript [StageOutcome.ready] (initPool 1)).tasks ≤ 1
    ∧ driverTick (runScript [StageOutcome.ready] (initPool 1))
        StageOutcome.busy
        = flushHead (runScript [StageOutcome.ready] (initPool 1)) :=
  ⟨(async_depth_bound 1 [StageOutcome.ready] StageOutcome.busy).1,
   (async_depth_bound 1 [StageOutcome.ready] StageOutcome.busy).2 (by decide)⟩

/-! ### Claim C3: surface-pool exhaustion -/

lemma freeSurfaceScan_all_locked (locked : List Bool)
    (h : ∀ b ∈ locked, b = true) : freeSurfaceScan locked = none := by
  induction locked with
  | nil => rfl
  | cons b rest ih =>
    have hb : b = true := h b (by simp)
    have hr : freeSurfaceScan rest = none := ih (fun x hx => h x (by simp [hx]))
    simp [freeSurfaceScan, hb, hr]

/-- Claim C3 counterexample: with every surface owned by the accelerator,
`GetFreeSurfaceIndex` does report `MFX_ERR_NOT_FOUND`, but the driver turns
that into `MFX_ERR_MEMORY_ALLOC` and aborts the pipeline
(`MSDK_CHECK_ERROR` at lines 424-427) instead of waiting and retrying. -/
theorem surface_notfound_counterexample :
    GetFreeSurfaceIndex [true, true] = MFX_ERR_NOT_FOUND
    ∧ driverAcquireSurface [true, true]
        = SurfaceAcquire.abort MFX_ERR_MEMORY_ALLOC := by
  constructor
  · rfl
  · rfl

/-- Claim C3 amended: when the surface pool has no free entry, the pure scan
returns `MFX_ERR_NOT_FOUND` (no side effects), and the driver reacts by
aborting the pipeline with `MFX_ERR_MEMORY_ALLOC`; the wait-and-retry
backpressure treatment applies only to the task pool, not to the surface
pools. -/
theorem surface_notfound_aborts (locked : List Bool)
    (h : ∀ b ∈ locked, b = true) :
    GetFreeSurfaceIndex locked = MFX_ERR_NOT_FOUND
    ∧ driverAcquireSurface locked
        = SurfaceAcquire.abort MFX_ERR_MEMORY_ALLOC := by
  have hs := freeSurfaceScan_all_locked locked h
  constructor
  · simp [GetFreeSurfaceIndex, hs]
  · simp [driverAcquireSurface, GetFreeSurfaceIndex, hs]

theorem surface_notfound_aborts_witness :
    GetFreeSurfaceIndex [true] = MFX_ERR_NOT_FOUND
    ∧ driverAcquireSurface [true]
        = SurfaceAcquire.abort MFX_ERR_MEMORY_ALLOC :=
  surface_notfound_aborts [true] (by decide)

/-! ### Claim C5: a failed wait aborts immediately, keeping flushed output -/

/-- Claim C5: if the wait on the oldest task's completion token does not
report success (in particular when the 60000 ms timeout elapses and it
reports `MFX_WRN_IN_EXECUTION`), the pipeline aborts at once with that
status — no retry of the wait, nothing further executed — and the sink
still holds exactly the frames flushed before the failure. -/
theorem sync_timeout_aborts (syncSts : Int) (s : PoolState)
    (h : syncSts ≠ MFX_ERR_NONE) :
    syncFlushOldest syncSts s = .error (syncSts, s.sink)
    ∧ syncWaitTimeoutMs = 60000 := by
  refine ⟨?_, rfl⟩
  simp [syncFlushOldest, h]

theorem sync_timeout_aborts_witness :
    MFX_WRN_IN_EXECUTION ≠ MFX_ERR_NONE
    ∧ (syncFlushOldest MFX_WRN_IN_EXECUTION
          (runScript [StageOutcome.ready] (initPool 4))
        = .error (MFX_WRN_IN_EXECUTION,
            (runScript [StageOutcome.ready] (initPool 4)).sink)
      ∧ syncWaitTimeoutMs = 60000) :=
  ⟨by decide,
   sync_timeout_aborts MFX_WRN_IN_EXECUTION
     (runScript [StageOutcome.ready] (initPool 4)) (by decide)⟩

/-! ### Claims C6 and C7: the retry loops -/

lemma vppRetryLoop_replicate_busy (n : Nat) (rest : List SubmitResp)
    (k : Nat) :
    vppRetryLoop
      (List.replicate n ⟨MFX_WRN_DEVICE_BUSY, false⟩
        ++ ⟨MFX_ERR_NONE, true⟩ :: rest) k
      = some (MFX_ERR_NONE, true, k + n) := by
  induction n generalizing k with
  | zero => simp [vppRetryLoop, MFX_ERR_NONE]
  | succ n ih =>
    rw [List.replicate_succ, List.cons_append, vppRetryLoop, if_pos, ih]
    · simp only [Option.some.injEq, Prod.mk.injEq]
      exact ⟨trivial, trivial, by omega⟩
    · exact ⟨by decide, rfl⟩

lemma encRetryLoop_replicate_busy (n : Nat) (rest : List SubmitResp)
    (k : Nat) :
    encRetryLoop
      (List.replicate n ⟨MFX_WRN_DEVICE_BUSY, false⟩
        ++ ⟨MFX_ERR_NONE, true⟩ :: rest) k
      = some (MFX_ERR_NONE, true, k + n) := by
  induction n generalizing k with
  | zero => simp [encRetryLoop, MFX_ERR_NONE, MFX_ERR_NOT_ENOUGH_BUFFER]
  | succ n ih =>
    rw [List.replicate_succ, List.cons_append, encRetryLoop, if_pos, ih]
    · simp only [Option.some.injEq, Prod.mk.injEq]
      exact ⟨trivial, trivial, by omega⟩
    · exact ⟨by decide, rfl⟩

lemma vppRetryLoop_ne_busy (script : List SubmitResp) (k : Nat)
    (out : Int × Bool × Nat) (h : vppRetryLoop script k = some out) :
    out.1 ≠ MFX_WRN_DEVICE_BUSY := by
  induction script generalizing k with
  | nil => simp [vppRetryLoop] at h
  | cons r rest ih =>
    rw [vppRetryLoop] at h
    by_cases h1 : MFX_ERR_NONE < r.sts ∧ r.syncp = false
    · rw [if_pos h1] at h
      exact ih _ h
    · rw [if_neg h1] at h
      by_cases h2 : MFX_ERR_NONE < r.sts ∧ r.syncp = true
      · rw [if_pos h2] at h
        cases h
        intro hc
        have hs : MFX_ERR_NONE = MFX_WRN_DEVICE_BUSY := hc
        exact absurd hs (by decide)
      · rw [if_neg h2] at h
        cases h
        intro hc
        have hs : r.sts = MFX_WRN_DEVICE_BUSY := hc
        rcases Bool.eq_false_or_eq_true r.syncp with hb | hb
        · exact h2 ⟨by rw [hs]; decide, hb⟩
        · exact h1 ⟨by rw [hs]; decide, hb⟩

lemma encRetryLoop_ne_busy (script : List SubmitResp) (k : Nat)
    (out : Int × Bool × Nat) (h : encRetryLoop script k = some out) :
    out.1 ≠ MFX_WRN_DEVICE_BUSY := by
  induction script generalizing k with
  | nil => simp [encRetryLoop] at h
  | cons r rest ih =>
    rw [encRetryLoop] at h
    by_cases h1 : MFX_ERR_NONE < r.sts ∧ r.syncp = false
    · rw [if_pos h1] at h
      exact ih _ h
    · rw [if_neg h1] at h
      by_cases h2 : MFX_ERR_NONE < r.sts ∧ r.syncp = true
      · rw [if_pos h2] at h
        cases h
        intro hc
        have hs : MFX_ERR_NONE = MFX_WRN_DEVICE_BUSY := hc
        exact absurd hs (by decide)
      · rw [if_neg h2] at h
        by_cases h3 : r.sts = MFX_ERR_NOT_ENOUGH_BUFFER
        · rw [if_pos h3] at h
          cases h
          intro hc
          have hs : r.sts = MFX_WRN_DEVICE_BUSY := hc
          rw [h3] at hs
          exact absurd hs (by decide)
        · rw [if_neg h3] at h
          cases h
          intro hc
          have hs : r.sts = MFX_WRN_DEVICE_BUSY := hc
          rcases Bool.eq_false_or_eq_true r.syncp with hb | hb
          · exact h2 ⟨by rw [hs]; decide, hb⟩
          · exact h1 ⟨by rw [hs]; decide, hb⟩

/-- Claim C6: a device-busy status is never surfaced and never ends the
pipeline.  The VPP and encode retry loops accept any number `n` of
consecutive `MFX_WRN_DEVICE_BUSY` responses and still succeed after them
(there is no cap on `n`, only a sleep between attempts); whatever they
return, its status is never `MFX_WRN_DEVICE_BUSY`; and for the decode stage
a busy status keeps every stage's `while` condition true, so the driver
sleeps and repeats the same call instead of leaving the loop. -/
theorem busy_retried_never_surfaced (n : Nat) (rest script : List SubmitResp)
    (out : Int × Bool × Nat) (k : Nat)
    (h : vppRetryLoop script k = some out) :
    vppRetryLoop
        (List.replicate n ⟨MFX_WRN_DEVICE_BUSY, false⟩
          ++ ⟨MFX_ERR_NONE, true⟩ :: rest) 0
        = some (MFX_ERR_NONE, true, n)
    ∧ encRetryLoop
        (List.replicate n ⟨MFX_WRN_DEVICE_BUSY, false⟩
          ++ ⟨MFX_ERR_NONE, true⟩ :: rest) 0
        = some (MFX_ERR_NONE, true, n)
    ∧ out.1 ≠ MFX_WRN_DEVICE_BUSY
    ∧ stage1LoopCond MFX_WRN_DEVICE_BUSY
    ∧ stage2LoopCond MFX_WRN_DEVICE_BUSY
    ∧ stage3LoopCond MFX_WRN_DEVICE_BUSY
    ∧ stage4LoopCond MFX_WRN_DEVICE_BUSY := by
  refine ⟨?_, ?_, vppRetryLoop_ne_busy script k out h, ?_, ?_, ?_, ?_⟩
  · have := vppRetryLoop_replicate_busy n rest 0
    simpa using this
  · have := encRetryLoop_replicate_busy n rest 0
    simpa using this
  · exact Or.inl (by decide)
  · exact Or.inl (by decide)
  · exact Or.inl (by decide)
  · decide

theorem busy_retried_never_surfaced_witness :
    vppRetryLoop [⟨MFX_WRN_DEVICE_BUSY, false⟩, ⟨MFX_ERR_NONE, true⟩] 0
        = some (MFX_ERR_NONE, true, 1)
    ∧ (vppRetryLoop
          (List.replicate 2 ⟨MFX_WRN_DEVICE_BUSY, false⟩
            ++ ⟨MFX_ERR_NONE, true⟩ :: []) 0
          = some (MFX_ERR_NONE, true, 2)
      ∧ encRetryLoop
          (List.replicate 2 ⟨MFX_WRN_DEVICE_BUSY, false⟩
            ++ ⟨MFX_ERR_NONE, true⟩ :: []) 0
          = some (MFX_ERR_NONE, true, 2)
      ∧ (MFX_ERR_NONE, true, 1).1 ≠ MFX_WRN_DEVICE_BUSY
      ∧ stage1LoopCond MFX_WRN_DEVICE_BUSY
      ∧ stage2LoopCond MFX_WRN_DEVICE_BUSY
      ∧ stage3LoopCond MFX_WRN_DEVICE_BUSY
      ∧ stage4LoopCond MFX_WRN_DEVICE_BUSY) :=
  ⟨by decide,
   busy_retried_never_surfaced 2 []
     [⟨MFX_WRN_DEVICE_BUSY, false⟩, ⟨MFX_ERR_NONE, true⟩]
     (MFX_ERR_NONE, true, 1) 0 (by decide)⟩

/-- Claim C7: an `MFX_ERR_MORE_SURFACE` outcome from the transform stage is
never retried — the retry loop returns it at once with zero retries — and
Stage 1 treats it as a hard stop: the dispatch breaks out of the
transcoding loop and the post-loop check turns it into a diagnostic abort
with that very status.  The retry loop retries a busy response, and hands
`MFX_ERR_MORE_DATA` (need more input) and success back to the driver. -/
theorem more_surface_hard_stop (rest : List SubmitResp) :
    vppStage1Dispatch MFX_ERR_MORE_SURFACE = VppDispatch.hardStop
    ∧ stage1PostLoop MFX_ERR_MORE_SURFACE = some MFX_ERR_MORE_SURFACE
    ∧ vppRetryLoop (⟨MFX_ERR_MORE_SURFACE, false⟩ :: rest) 0
        = some (MFX_ERR_MORE_SURFACE, false, 0)
    ∧ vppRetryLoop (⟨MFX_WRN_DEVICE_BUSY, false⟩ :: rest) 0
        = vppRetryLoop rest 1
    ∧ vppRetryLoop (⟨MFX_ERR_MORE_DATA, false⟩ :: rest) 0
        = some (MFX_ERR_MORE_DATA, false, 0)
    ∧ vppStage1Dispatch MFX_ERR_MORE_DATA = VppDispatch.feedMoreInput
    ∧ vppRetryLoop (⟨MFX_ERR_NONE, true⟩ :: rest) 0
        = some (MFX_ERR_NONE, true, 0) := by
  refine ⟨rfl, rfl, ?_, ?_, ?_, rfl, ?_⟩
  · rw [vppRetryLoop]
    norm_num [MFX_ERR_MORE_SURFACE, MFX_ERR_NONE]
  · rw [vppRetryLoop]
    norm_num [MFX_WRN_DEVICE_BUSY, MFX_ERR_NONE]
  · rw [vppRetryLoop]
    norm_num [MFX_ERR_MORE_DATA, MFX_ERR_NONE]
  · rw [vppRetryLoop]
    norm_num [MFX_ERR_NONE]

/-! ### Claim C10: mandatory-option validation -/

/-- Claim C10: if the bitrate is unset, the frame-rate numerator or
denominator is unset, or the source file name is empty, `main` prints one
error message and returns `-1` right away — no file is opened and no
session or accelerator is touched. -/
theorem mandatory_options_validated (v : CmdValues)
    (h : v.Bitrate = 0 ∨ v.FrameRateN = 0 ∨ v.FrameRateD = 0
        ∨ v.SourceName = "") :
    (mainPrologue v).2 = some (-1)
    ∧ (∃ m, (mainPrologue v).1 = [MainAction.printError m])
    ∧ MainAction.openSource ∉ (mainPrologue v).1
    ∧ MainAction.openSink ∉ (mainPrologue v).1
    ∧ MainAction.sessionSetup ∉ (mainPrologue v).1 := by
  by_cases h1 : v.Bitrate = 0
  · simp [mainPrologue, h1]
  · by_cases h2 : v.FrameRateN = 0 ∨ v.FrameRateD = 0
    · simp [mainPrologue, h1, h2]
    · by_cases h3 : v.SourceName = ""
      · simp [mainPrologue, h1, h2, h3]
      · exfalso
        rcases h with h | h | h | h
        · exact h1 h
        · exact h2 (Or.inl h)
        · exact h2 (Or.inr h)
        · exact h3 h

theorem mandatory_options_validated_witness :
    ((0 : Nat) = 0 ∨ (30 : Nat) = 0 ∨ (1 : Nat) = 0 ∨ "in.h265" = "")
    ∧ ((mainPrologue ⟨0, 30, 1, "in.h265", ""⟩).2 = some (-1)
      ∧ (∃ m, (mainPrologue ⟨0, 30, 1, "in.h265", ""⟩).1
            = [MainAction.printError m])
      ∧ MainAction.openSource ∉ (mainPrologue ⟨0, 30, 1, "in.h265", ""⟩).1
      ∧ MainAction.openSink ∉ (mainPrologue ⟨0, 30, 1, "in.h265", ""⟩).1
      ∧ MainAction.sessionSetup
          ∉ (mainPrologue ⟨0, 30, 1, "in.h265", ""⟩).1) :=
  ⟨Or.inl rfl,
   mandatory_options_validated ⟨0, 30, 1, "in.h265", ""⟩ (Or.inl rfl)⟩

end MediaSDK

namespace MediaSDK

/-! ### List index helper lemmas -/

lemma getD_set_self {α : Type} (l : List α) (i : Nat) (a d : α)
    (h : i < l.length) : (l.set i a).getD i d = a := by
  simp [List.getD, List.getElem?_set_self, h]

lemma getD_set_ne {α : Type} (l : List α) (i j : Nat) (a d : α)
    (hne : i ≠ j) : (l.set i a).getD j d = l.getD j d := by
  simp [List.getD, List.getElem?_set_ne hne]

lemma getD_replicate {α : Type} (n i : Nat) (a : α) :
    (List.replicate n a).getD i a = a := by
  induction n generalizing i with
  | zero => simp [List.getD]
  | succ n ih =>
    cases i with
    | zero => simp [List.replicate_succ]
    | succ i => simpa [List.replicate_succ] using ih i

lemma getD_of_length_le {α : Type} (l : List α) (i : Nat) (d : α)
    (h : l.length ≤ i) : l.getD i d = d := by
  simp [List.getD, List.getElem?_eq_none h]

lemma countP_set_add {α : Type} (p : α → Bool) (l : List α) :
    ∀ i a d, i < l.length →
      (l.set i a).countP p + (if p (l.getD i d) then 1 else 0)
        = l.countP p + (if p a then 1 else 0) := by
  induction l with
  | nil => intro i a d h; simp at h
  | cons x xs ih =>
    intro i a d h
    cases i with
    | zero =>
      cases hpa : p a <;> cases hpx : p x <;>
        simp [List.countP_cons, hpa, hpx] <;> omega
    | succ i =>
      have hlen : i < xs.length := by simpa using h
      have hih := ih i a d hlen
      cases hpx : p x <;>
        simp only [List.set_cons_succ, List.countP_cons, List.getD_cons_succ,
          hpx, if_true, if_false] <;> omega

lemma countP_replicate_free :
    ∀ n, (List.replicate n Task.free).countP (fun t => t.syncp.isSome) = 0 := by
  intro n
  induction n with
  | zero => rfl
  | succ n ih => simp [List.replicate_succ, List.countP_cons, ih, Task.free]

/-! ### Characterizing the free-task scan -/

lemma getFreeTaskIndex_none_iff (tasks : List Task) :
    GetFreeTaskIndex tasks = none
      ↔ ∀ j, j < tasks.length → (tasks.getD j Task.free).syncp.isSome := by
  induction tasks with
  | nil => simp [GetFreeTaskIndex]
  | cons t ts ih =>
    rw [GetFreeTaskIndex]
    by_cases ht : t.syncp.isNone
    · rw [if_pos ht]
      constructor
      · intro h; cases h
      · intro h
        have h0 := h 0 (by simp)
        rw [List.getD_cons_zero] at h0
        rw [Option.isNone_iff_eq_none] at ht
        rw [ht] at h0
        cases h0
    · rw [if_neg ht]
      have hts : t.syncp.isSome := by
        cases hsy : t.syncp <;> simp [hsy] at ht ⊢
      constructor
      · intro h j hj
        have hn : GetFreeTaskIndex ts = none := by
          cases hg : GetFreeTaskIndex ts with
          | none => rfl
          | some v => rw [hg] at h; simp at h
        cases j with
        | zero => simpa using hts
        | succ j =>
          rw [List.getD_cons_succ]
          exact (ih.mp hn) j (by simpa using hj)
      · intro h
        have hn : GetFreeTaskIndex ts = none :=
          ih.mpr (fun j hj => by
            have := h (j + 1) (by simpa using hj)
            simpa using this)
        rw [hn]
        rfl

lemma getFreeTaskIndex_some_iff (tasks : List Task) :
    ∀ i, GetFreeTaskIndex tasks = some i
      ↔ i < tasks.length ∧ (tasks.getD i Task.free).syncp = none
        ∧ ∀ j, j < i → (tasks.getD j Task.free).syncp.isSome := by
  induction tasks with
  | nil => intro i; simp [GetFreeTaskIndex]
  | cons t ts ih =>
    intro i
    rw [GetFreeTaskIndex]
    by_cases ht : t.syncp.isNone
    · rw [if_pos ht]
      rw [Option.isNone_iff_eq_none] at ht
      constructor
      · intro h
        cases h
        refine ⟨by simp, by simpa using ht, ?_⟩
        intro j hj
        cases hj
      · rintro ⟨hi, hnone, hlt⟩
        cases i with
        | zero => rfl
        | succ i =>
          have := hlt 0 (by omega)
          rw [List.getD_cons_zero] at this
          rw [ht] at this
          cases this
    · rw [if_neg ht]
      have hts : t.syncp.isSome := by
        cases hsy : t.syncp <;> simp [hsy] at ht ⊢
      constructor
      · intro h
        cases hg : GetFreeTaskIndex ts with
        | none => rw [hg] at h; simp at h
        | some i' =>
          rw [hg] at h
          have h2 : some (i' + 1) = some i := h
          cases h2
          obtain ⟨hi', hnone', hlt'⟩ := (ih i').mp hg
          refine ⟨by simpa using hi', by simpa using hnone', ?_⟩
          intro j hj
          cases j with
          | zero => simpa using hts
          | succ j =>
            rw [List.getD_cons_succ]
            exact hlt' j (by omega)
      · rintro ⟨hi, hnone, hlt⟩
        cases i with
        | zero =>
          rw [List.getD_cons_zero] at hnone
          exact absurd (Option.isNone_iff_eq_none.mpr hnone) ht
        | succ i =>
          have hg : GetFreeTaskIndex ts = some i := by
            rw [ih i]
            refine ⟨by simpa using hi, by simpa using hnone, ?_⟩
            intro j hj
            have := hlt (j + 1) (by omega)
            simpa using this
          rw [hg]
          rfl

end MediaSDK

namespace MediaSDK

/-! ### Circular index helpers -/

lemma pos_index_inj (L h j j' : Nat) (hj : j < L) (hj' : j' < L)
    (heq : (h + j) % L = (h + j') % L) : j = j' := by
  have hmod : Nat.ModEq L (h + j) (h + j') := heq
  have hcancel := Nat.ModEq.add_left_cancel' h hmod
  have : j % L = j' % L := hcancel
  rw [Nat.mod_eq_of_lt hj, Nat.mod_eq_of_lt hj'] at this
  exact this

lemma pos_index_surj (L h p : Nat) (hh : h < L) (hp : p < L) :
    (h + (p + L - h) % L) % L = p := by
  rw [Nat.add_mod_mod]
  have h1 : h + (p + L - h) = p + L := by omega
  rw [h1, Nat.add_mod_right, Nat.mod_eq_of_lt hp]

lemma head_add_len (L h : Nat) (hh : h < L) : (h + L) % L = h := by
  rw [Nat.add_mod_right, Nat.mod_eq_of_lt hh]

lemma shift_ne_head (L h j : Nat) (hh : h < L) (hj0 : 0 < j) (hjL : j < L) :
    (h + j) % L ≠ h := by
  intro heq
  have h0 : (h + 0) % L = h := by
    rw [Nat.add_zero, Nat.mod_eq_of_lt hh]
  have := pos_index_inj L h j 0 hjL (by omega) (by rw [heq, h0])
  omega

/-! ### The circular-segment invariant

In every state the driver can reach, the occupied task slots form a
circular segment of some length `k` starting at the FIFO head
`nFirstSyncTask`, holding the `k` most recent submission numbers in issue
order, while the sink holds all older submissions in issue order. -/

structure SegInv (s : PoolState) (k : Nat) : Prop where
  hk : k ≤ s.tasks.length
  hkn : k ≤ s.nextId
  hhead : s.nFirstSyncTask < s.tasks.length
  hsink : s.sink = List.range (s.nextId - k)
  hframe : s.nFrame = s.nextId - k
  hcount : countOutstanding s.tasks = k
  hlayout : ∀ j, j < s.tasks.length →
    s.tasks.getD ((s.nFirstSyncTask + j) % s.tasks.length) Task.free
      = if j < k then Task.occupied (s.nextId - k + j) else Task.free

/-- In Stages 1-4 a flush happens only when the pool is full, so between
iterations either nothing was ever flushed (the head is still 0) or at most
one slot is free; in both cases the first free slot in scan order is
exactly the end of the segment. -/
def SegInvDrv (s : PoolState) : Prop :=
  ∃ k, SegInv s k ∧ (s.nFirstSyncTask = 0 ∨ s.tasks.length ≤ k + 1)

lemma segInv_getFree_full (s : PoolState) (hs : SegInv s s.tasks.length) :
    GetFreeTaskIndex s.tasks = none := by
  rw [getFreeTaskIndex_none_iff]
  intro p hp
  have hL : 0 < s.tasks.length := by
    have := hs.hhead; omega
  have hj : (p + s.tasks.length - s.nFirstSyncTask) % s.tasks.length
      < s.tasks.length := Nat.mod_lt _ hL
  have hsurj := pos_index_surj s.tasks.length s.nFirstSyncTask p hs.hhead hp
  have hlay := hs.hlayout _ hj
  rw [hsurj] at hlay
  rw [hlay, if_pos hj]
  simp [Task.occupied]

lemma segInv_getFree_partial (s : PoolState) (k : Nat) (hs : SegInv s k)
    (hlt : k < s.tasks.length)
    (hside : s.nFirstSyncTask = 0 ∨ s.tasks.length ≤ k + 1) :
    GetFreeTaskIndex s.tasks
      = some ((s.nFirstSyncTask + k) % s.tasks.length) := by
  have hL : 0 < s.tasks.length := by omega
  rw [getFreeTaskIndex_some_iff]
  refine ⟨Nat.mod_lt _ hL, ?_, ?_⟩
  · have hlay := hs.hlayout k hlt
    rw [hlay, if_neg (lt_irrefl k)]
    rfl
  · intro q hq
    have hqL : q < s.tasks.length := by
      have := Nat.mod_lt (s.nFirstSyncTask + k) hL
      omega
    rcases hside with h0 | hfull
    · -- the head never moved: slot j sits at index j
      have hpos : (s.nFirstSyncTask + k) % s.tasks.length = k := by
        rw [h0, Nat.zero_add, Nat.mod_eq_of_lt hlt]
      rw [hpos] at hq
      have hlay := hs.hlayout q hqL
      have hposq : (s.nFirstSyncTask + q) % s.tasks.length = q := by
        rw [h0, Nat.zero_add, Nat.mod_eq_of_lt hqL]
      rw [hposq] at hlay
      rw [hlay, if_pos hq]
      simp [Task.occupied]
    · -- exactly one free slot, at the end of the segment
      have hkeq : k = s.tasks.length - 1 := by omega
      have hjq : (q + s.tasks.length - s.nFirstSyncTask) % s.tasks.length
          < s.tasks.length := Nat.mod_lt _ hL
      have hsurj := pos_index_surj s.tasks.length s.nFirstSyncTask q
        hs.hhead hqL
      have hlay := hs.hlayout _ hjq
      rw [hsurj] at hlay
      have hne : (q + s.tasks.length - s.nFirstSyncTask) % s.tasks.length
          ≠ k := by
        intro heqk
        have : q = (s.nFirstSyncTask + k) % s.tasks.length := by
          rw [← heqk, hsurj]
        omega
      have hjlt : (q + s.tasks.length - s.nFirstSyncTask) % s.tasks.length
          < k := by omega
      rw [hlay, if_pos hjlt]
      simp [Task.occupied]

end MediaSDK

namespace MediaSDK

lemma segInv_flushHead (s : PoolState) (k : Nat) (hs : SegInv s k)
    (hk1 : 1 ≤ k) : SegInv (flushHead s) (k - 1) := by
  have hL : 0 < s.tasks.length := by
    have := hs.hhead; omega
  have hhead0 : (s.nFirstSyncTask + 0) % s.tasks.length = s.nFirstSyncTask := by
    rw [Nat.add_zero, Nat.mod_eq_of_lt hs.hhead]
  have hheadslot : s.tasks.getD s.nFirstSyncTask Task.free
      = Task.occupied (s.nextId - k) := by
    have := hs.hlayout 0 hL
    rw [hhead0] at this
    rw [this, if_pos (by omega), Nat.add_zero]
  refine ⟨?_, ?_, ?_, ?_, ?_, ?_, ?_⟩
  · have := hs.hk
    simp [flushHead]
    omega
  · have := hs.hkn
    show k - 1 ≤ s.nextId
    omega
  · simp [flushHead]
    exact Nat.mod_lt _ hL
  · show s.sink ++ (s.tasks.getD s.nFirstSyncTask Task.free).syncp.toList
        = List.range (s.nextId - (k - 1))
    rw [hheadslot, hs.hsink]
    show List.range (s.nextId - k) ++ [s.nextId - k]
        = List.range (s.nextId - (k - 1))
    rw [← List.range_succ]
    have := hs.hkn
    congr 1
    omega
  · show s.nFrame + 1 = s.nextId - (k - 1)
    have := hs.hkn
    rw [hs.hframe]
    omega
  · show countOutstanding (s.tasks.set s.nFirstSyncTask Task.free) = k - 1
    have hadd := countP_set_add (fun t => t.syncp.isSome) s.tasks
      s.nFirstSyncTask Task.free Task.free hs.hhead
    rw [hheadslot] at hadd
    have hocc : (fun (t : Task) => t.syncp.isSome) (Task.occupied (s.nextId - k))
        = true := rfl
    have hfree : (fun (t : Task) => t.syncp.isSome) Task.free = false := rfl
    rw [hocc, hfree] at hadd
    simp at hadd
    have := hs.hcount
    unfold countOutstanding at this ⊢
    omega
  · intro j hj
    simp only [flushHead] at hj ⊢
    rw [List.length_set] at hj ⊢
    rw [Nat.mod_add_mod]
    by_cases hlast : j = s.tasks.length - 1
    · -- this position is the just-recycled old head
      subst hlast
      have hpos : (s.nFirstSyncTask + 1 + (s.tasks.length - 1)) % s.tasks.length
          = s.nFirstSyncTask := by
        have : s.nFirstSyncTask + 1 + (s.tasks.length - 1)
            = s.nFirstSyncTask + s.tasks.length := by omega
        rw [this, head_add_len _ _ hs.hhead]
      rw [hpos]
      rw [getD_set_self _ _ _ _ hs.hhead]
      rw [if_neg (by have := hs.hk; omega)]
    · -- shifted view of the old segment, one slot later
      have hj1 : j + 1 < s.tasks.length := by omega
      have hppos : s.nFirstSyncTask + 1 + j = s.nFirstSyncTask + (j + 1) := by
        omega
      rw [hppos]
      have hne : (s.nFirstSyncTask + (j + 1)) % s.tasks.length
          ≠ s.nFirstSyncTask :=
        shift_ne_head _ _ _ hs.hhead (by omega) hj1
      rw [getD_set_ne _ _ _ _ _ (fun heq => hne heq.symm)]
      have hlay := hs.hlayout (j + 1) hj1
      rw [hlay]
      by_cases hjk : j < k - 1
      · rw [if_pos (by omega), if_pos hjk]
        have := hs.hkn
        congr 1
        omega
      · rw [if_neg (by omega), if_neg hjk]

lemma segInv_issue (s : PoolState) (k : Nat) (hs : SegInv s k)
    (hlt : k < s.tasks.length)
    (hside : s.nFirstSyncTask = 0 ∨ s.tasks.length ≤ k + 1) :
    SegInv (issueEncode s ((s.nFirstSyncTask + k) % s.tasks.length)) (k + 1) := by
  have hL : 0 < s.tasks.length := by omega
  have hiL : (s.nFirstSyncTask + k) % s.tasks.length < s.tasks.length :=
    Nat.mod_lt _ hL
  have hslot : s.tasks.getD ((s.nFirstSyncTask + k) % s.tasks.length) Task.free
      = Task.free := by
    have := hs.hlayout k hlt
    rw [this, if_neg (lt_irrefl k)]
  refine ⟨?_, ?_, ?_, ?_, ?_, ?_, ?_⟩
  · simp [issueEncode]
    omega
  · have := hs.hkn
    simp [issueEncode]
    omega
  · simp [issueEncode]
    exact hs.hhead
  · show s.sink = List.range (s.nextId + 1 - (k + 1))
    rw [hs.hsink]
    congr 1
    omega
  · show s.nFrame = s.nextId + 1 - (k + 1)
    rw [hs.hframe]
    omega
  · show countOutstanding
        (s.tasks.set ((s.nFirstSyncTask + k) % s.tasks.length)
          (Task.occupied s.nextId)) = k + 1
    have hadd := countP_set_add (fun t => t.syncp.isSome) s.tasks
      ((s.nFirstSyncTask + k) % s.tasks.length) (Task.occupied s.nextId)
      Task.free hiL
    rw [hslot] at hadd
    have hocc : (fun (t : Task) => t.syncp.isSome) (Task.occupied s.nextId)
        = true := rfl
    have hfree : (fun (t : Task) => t.syncp.isSome) Task.free = false := rfl
    rw [hocc, hfree] at hadd
    simp at hadd
    have := hs.hcount
    unfold countOutstanding at this ⊢
    omega
  · intro j hj
    simp only [issueEncode] at hj ⊢
    rw [List.length_set] at hj ⊢
    by_cases hjk : j = k
    · subst hjk
      rw [getD_set_self _ _ _ _ hiL]
      rw [if_pos (by omega)]
      have := hs.hkn
      congr 1
      omega
    · have hne : (s.nFirstSyncTask + j) % s.tasks.length
          ≠ (s.nFirstSyncTask + k) % s.tasks.length := by
        intro heq
        exact hjk (pos_index_inj _ _ _ _ hj hlt heq)
      rw [getD_set_ne _ _ _ _ _ (fun heq => hne heq.symm)]
      have hlay := hs.hlayout j hj
      rw [hlay]
      by_cases hjlt : j < k
      · rw [if_pos hjlt, if_pos (by omega)]
        have := hs.hkn
        congr 1
        omega
      · rw [if_neg hjlt, if_neg (by omega)]

lemma segInv_init (d : Nat) (hd : 0 < d) : SegInv (initPool d) 0 := by
  refine ⟨?_, ?_, ?_, ?_, ?_, ?_, ?_⟩
  · simp [initPool]
  · simp [initPool]
  · simpa [initPool] using hd
  · simp [initPool]
  · simp [initPool]
  · show countOutstanding (List.replicate d Task.free) = 0
    exact countP_replicate_free d
  · intro j hj
    simp only [initPool]
    rw [getD_replicate]
    rw [if_neg (by omega)]

lemma segInvDrv_tick (s : PoolState) (o : StageOutcome)
    (hs : SegInvDrv s) : SegInvDrv (driverTick s o) := by
  obtain ⟨k, hseg, hside⟩ := hs
  have hL : 0 < s.tasks.length := by
    have := hseg.hhead; omega
  by_cases hfull : k = s.tasks.length
  · subst hfull
    have hnone := segInv_getFree_full s hseg
    have htick : driverTick s o = flushHead s := by
      unfold driverTick
      rw [hnone]
    rw [htick]
    refine ⟨s.tasks.length - 1, segInv_flushHead s s.tasks.length hseg hL, ?_⟩
    right
    simp [flushHead]
    omega
  · have hlt : k < s.tasks.length := Nat.lt_of_le_of_ne hseg.hk hfull
    have hsome := segInv_getFree_partial s k hseg hlt hside
    cases o with
    | ready =>
      have htick : driverTick s StageOutcome.ready
          = issueEncode s ((s.nFirstSyncTask + k) % s.tasks.length) := by
        unfold driverTick
        rw [hsome]
      rw [htick]
      refine ⟨k + 1, segInv_issue s k hseg hlt hside, ?_⟩
      rcases hside with h0 | hfull'
      · left
        simpa [issueEncode] using h0
      · right
        simp [issueEncode]
        omega
    | busy =>
      have htick : driverTick s StageOutcome.busy = s := by
        unfold driverTick
        rw [hsome]
      rw [htick]
      exact ⟨k, hseg, hside⟩
    | needMoreInput =>
      have htick : driverTick s StageOutcome.needMoreInput = s := by
        unfold driverTick
        rw [hsome]
      rw [htick]
      exact ⟨k, hseg, hside⟩

lemma segInvDrv_runScript_of (script : List StageOutcome) :
    ∀ s, SegInvDrv s → SegInvDrv (runScript script s) := by
  induction script with
  | nil => intro s hs; exact hs
  | cons o os ih =>
    intro s hs
    rw [runScript]
    exact ih _ (segInvDrv_tick s o hs)

lemma segInvDrv_runScript (d : Nat) (hd : 0 < d)
    (script : List StageOutcome) :
    SegInvDrv (runScript script (initPool d)) :=
  segInvDrv_runScript_of script (initPool d)
    ⟨0, segInv_init d hd, Or.inl rfl⟩

lemma flushLoop_drain (k : Nat) : ∀ fuel s, SegInv s k → k ≤ fuel →
    (flushLoop fuel s).sink = List.range s.nextId
    ∧ (flushLoop fuel s).nextId = s.nextId := by
  induction k with
  | zero =>
    intro fuel s hs hf
    have hL : 0 < s.tasks.length := by
      have := hs.hhead; omega
    have hhead0 : (s.nFirstSyncTask + 0) % s.tasks.length
        = s.nFirstSyncTask := by
      rw [Nat.add_zero, Nat.mod_eq_of_lt hs.hhead]
    have hfree : (s.tasks.getD s.nFirstSyncTask Task.free).syncp.isSome
        = false := by
      have := hs.hlayout 0 hL
      rw [hhead0] at this
      rw [this, if_neg (by omega)]
      rfl
    have hsink := hs.hsink
    cases fuel with
    | zero =>
      rw [flushLoop]
      refine ⟨?_, rfl⟩
      rw [hsink, Nat.sub_zero]
    | succ fuel =>
      rw [flushLoop, if_neg (by rw [hfree]; exact Bool.false_ne_true)]
      refine ⟨?_, rfl⟩
      rw [hsink, Nat.sub_zero]
  | succ k ih =>
    intro fuel s hs hf
    obtain ⟨fuel, rfl⟩ : ∃ f, fuel = f + 1 := ⟨fuel - 1, by omega⟩
    have hL : 0 < s.tasks.length := by
      have := hs.hhead; omega
    have hhead0 : (s.nFirstSyncTask + 0) % s.tasks.length
        = s.nFirstSyncTask := by
      rw [Nat.add_zero, Nat.mod_eq_of_lt hs.hhead]
    have hocc : (s.tasks.getD s.nFirstSyncTask Task.free).syncp.isSome
        = true := by
      have := hs.hlayout 0 hL
      rw [hhead0] at this
      rw [this, if_pos (by omega)]
      rfl
    rw [flushLoop, if_pos hocc]
    have hflush := segInv_flushHead s (k + 1) hs (by omega)
    have hk : k + 1 - 1 = k := by omega
    rw [hk] at hflush
    have hnext : (flushHead s).nextId = s.nextId := rfl
    have := ih fuel (flushHead s) hflush (by omega)
    rw [hnext] at this
    exact this

/-- Claim C2: tasks are flushed in exactly the order encode operations were
issued into them.  After any sequence of stage outcomes followed by the
Stage-5 flush of the remaining tasks, the sink is precisely
`0, 1, ..., nextId - 1`: every issued submission is written exactly once,
in issue order — the FIFO head advances circularly and no stage, including
the final task-flush stage, ever reorders flushes. -/
theorem fifo_flush_order (d : Nat) (hd : 0 < d) (script : List StageOutcome) :
    (flushRemaining (runScript script (initPool d))).sink
      = List.range (flushRemaining (runScript script (initPool d))).nextId := by
  obtain ⟨k, hseg, -⟩ := segInvDrv_runScript d hd script
  have hdrain := flushLoop_drain k
    ((runScript script (initPool d)).tasks.length)
    (runScript script (initPool d)) hseg hseg.hk
  rw [flushRemaining, hdrain.1, hdrain.2]

theorem fifo_flush_order_witness :
    0 < 4
    ∧ (flushRemaining (runScript
          [StageOutcome.ready, StageOutcome.needMoreInput, StageOutcome.ready]
          (initPool 4))).sink
        = List.range (flushRemaining (runScript
            [StageOutcome.ready, StageOutcome.needMoreInput,
              StageOutcome.ready] (initPool 4))).nextId :=
  ⟨by decide,
   fifo_flush_order 4 (by decide)
     [StageOutcome.ready, StageOutcome.needMoreInput, StageOutcome.ready]⟩

/-- Claim C9: a task slot's completion token is set exactly from a
successful encode submission until the slot is flushed: at every reachable
state the number of set tokens equals issued minus flushed, the token ids
present are exactly the issued-but-not-yet-flushed submissions, every slot
without a token is fully recycled (token `NULL`, `DataLength` and
`DataOffset` zero), and an iteration whose stage chain reports
need-more-input leaves the pool — in particular the claimed free slot —
completely untouched. -/
theorem syncp_lifecycle (d : Nat) (hd : 0 < d) (script : List StageOutcome) :
    countOutstanding (runScript script (initPool d)).tasks
        = (runScript script (initPool d)).nextId
          - (runScript script (initPool d)).nFrame
    ∧ (∀ p, p < d →
        ((runScript script (initPool d)).tasks.getD p Task.free).syncp = none →
        (runScript script (initPool d)).tasks.getD p Task.free = Task.free)
    ∧ (∀ p id,
        ((runScript script (initPool d)).tasks.getD p Task.free).syncp
            = some id →
        (runScript script (initPool d)).nFrame ≤ id
          ∧ id < (runScript script (initPool d)).nextId)
    ∧ (∀ i, GetFreeTaskIndex (runScript script (initPool d)).tasks = some i →
        driverTick (runScript script (initPool d)) StageOutcome.needMoreInput
          = runScript script (initPool d)) := by
  obtain ⟨k, hseg, -⟩ := segInvDrv_runScript d hd script
  have hlen : (runScript script (initPool d)).tasks.length = d := by
    rw [tasks_length_runScript]
    simp [initPool]
  have hL : 0 < (runScript script (initPool d)).tasks.length := by
    have := hseg.hhead; omega
  refine ⟨?_, ?_, ?_, ?_⟩
  · rw [hseg.hcount, hseg.hframe]
    have := hseg.hkn
    omega
  · intro p hp hnone
    have hpL : p < (runScript script (initPool d)).tasks.length := by omega
    have hsurj := pos_index_surj _ _ p hseg.hhead hpL
    have hjlt : (p + (runScript script (initPool d)).tasks.length
          - (runScript script (initPool d)).nFirstSyncTask)
          % (runScript script (initPool d)).tasks.length
        < (runScript script (initPool d)).tasks.length := Nat.mod_lt _ hL
    have hlay := hseg.hlayout _ hjlt
    rw [hsurj] at hlay
    by_cases hj : (p + (runScript script (initPool d)).tasks.length
          - (runScript script (initPool d)).nFirstSyncTask)
          % (runScript script (initPool d)).tasks.length < k
    · rw [hlay, if_pos hj] at hnone
      cases hnone
    · rw [hlay, if_neg hj]
  · intro p id hsome
    by_cases hpL : p < (runScript script (initPool d)).tasks.length
    · have hsurj := pos_index_surj _ _ p hseg.hhead hpL
      have hjlt : (p + (runScript script (initPool d)).tasks.length
            - (runScript script (initPool d)).nFirstSyncTask)
            % (runScript script (initPool d)).tasks.length
          < (runScript script (initPool d)).tasks.length := Nat.mod_lt _ hL
      have hlay := hseg.hlayout _ hjlt
      rw [hsurj] at hlay
      by_cases hj : (p + (runScript script (initPool d)).tasks.length
            - (runScript script (initPool d)).nFirstSyncTask)
            % (runScript script (initPool d)).tasks.length < k
      · rw [hlay, if_pos hj] at hsome
        have hid : some ((runScript script (initPool d)).nextId - k
            + (p + (runScript script (initPool d)).tasks.length
              - (runScript script (initPool d)).nFirstSyncTask)
              % (runScript script (initPool d)).tasks.length) = some id := hsome
        have hid2 := Option.some.inj hid
        have hkn := hseg.hkn
        have hfr := hseg.hframe
        omega
      · rw [hlay, if_neg hj] at hsome
        cases hsome
    · rw [getD_of_length_le _ _ _ (by omega)] at hsome
      cases hsome
  · intro i hi
    unfold driverTick
    rw [hi]

end MediaSDK

namespace MediaSDK

theorem syncp_lifecycle_witness :
    countOutstanding
        (runScript [StageOutcome.ready, StageOutcome.needMoreInput]
          (initPool 2)).tasks
      = (runScript [StageOutcome.ready, StageOutcome.needMoreInput]
          (initPool 2)).nextId
        - (runScript [StageOutcome.ready, StageOutcome.needMoreInput]
            (initPool 2)).nFrame :=
  (syncp_lifecycle 2 (by decide)
    [StageOutcome.ready, StageOutcome.needMoreInput]).1

/-! ### A deterministic whole-pipeline machine

For the termination and scenario claims the pipeline is run against a
deterministic model of the external accelerator and bitstream reader
(spec section 6).  `busyBudget` is the total number of
`MFX_WRN_DEVICE_BUSY` answers the device will ever give — the finite-run
rendering of the claim's fairness assumption that every submission
eventually returns non-Busy; `fileChunks` is the finite compressed input
(one chunk per frame); `chunksAvail` is input already read into `mfxBS`;
`decBuffered`, `vppBuffered`, `encBuffered` are frames each stage will
still emit during its drain; `vppLookahead` / `encLookahead` make the
stage answer `MFX_ERR_MORE_DATA` (buffering the frame) for its first
submissions.  Waits (`SyncOperation`) and sink writes succeed, matching
the claim's assumption that the per-task waits succeed. -/

structure Accel where
  busyBudget : Nat
  fileChunks : Nat
  chunksAvail : Nat
  decBuffered : Nat
  vppLookahead : Nat
  vppBuffered : Nat
  encLookahead : Nat
  encBuffered : Nat
deriving DecidableEq

/-- `ReadBitStreamData` (lines 120, 420): succeeds while the file has
chunks, `MFX_ERR_MORE_DATA` at end of input. -/
def readBitStreamData (a : Accel) : Accel × Int :=
  if 0 < a.fileChunks then
    ({ a with
        fileChunks := a.fileChunks - 1
        chunksAvail := a.chunksAvail + 1 }, MFX_ERR_NONE)
  else (a, MFX_ERR_MORE_DATA)

/-- `DecodeFrameAsync` (lines 430, 528): busy while the budget lasts; in
feeding mode emits a frame per available chunk, in drain mode (`NULL`
bitstream) emits its buffered frames; `MFX_ERR_MORE_DATA` otherwise.  The
`Bool` of the result tells whether a sync point was produced. -/
def decodeFrameAsync (a : Accel) (drain : Bool) : Accel × Int × Bool :=
  if 0 < a.busyBudget then
    ({ a with busyBudget := a.busyBudget - 1 }, MFX_WRN_DEVICE_BUSY, false)
  else if drain then
    if 0 < a.decBuffered then
      ({ a with decBuffered := a.decBuffered - 1 }, MFX_ERR_NONE, true)
    else (a, MFX_ERR_MORE_DATA, false)
  else
    if 0 < a.chunksAvail then
      ({ a with chunksAvail := a.chunksAvail - 1 }, MFX_ERR_NONE, true)
    else (a, MFX_ERR_MORE_DATA, false)

/-- `RunFrameVPPAsync` (lines 444, 541, 622): busy while the budget lasts;
while looking ahead it consumes the frame and answers
`MFX_ERR_MORE_DATA`; in drain mode it emits its buffered frames until
`MFX_ERR_MORE_DATA`. -/
def runFrameVPPAsync (a : Accel) (drain : Bool) : Accel × Int × Bool :=
  if 0 < a.busyBudget then
    ({ a with busyBudget := a.busyBudget - 1 }, MFX_WRN_DEVICE_BUSY, false)
  else if drain then
    if 0 < a.vppBuffered then
      ({ a with vppBuffered := a.vppBuffered - 1 }, MFX_ERR_NONE, true)
    else (a, MFX_ERR_MORE_DATA, false)
  else
    if 0 < a.vppLookahead then
      ({ a with
          vppLookahead := a.vppLookahead - 1
          vppBuffered := a.vppBuffered + 1 }, MFX_ERR_MORE_DATA, false)
    else (a, MFX_ERR_NONE, true)

/-- `EncodeFrameAsync` (lines 469, 565, 643, 696), same shape as the VPP
call. -/
def encodeFrameAsync (a : Accel) (drain : Bool) : Accel × Int × Bool :=
  if 0 < a.busyBudget then
    ({ a with busyBudget := a.busyBudget - 1 }, MFX_WRN_DEVICE_BUSY, false)
  else if drain then
    if 0 < a.encBuffered then
      ({ a with encBuffered := a.encBuffered - 1 }, MFX_ERR_NONE, true)
    else (a, MFX_ERR_MORE_DATA, false)
  else
    if 0 < a.encLookahead then
      ({ a with
          encLookahead := a.encLookahead - 1
          encBuffered := a.encBuffered + 1 }, MFX_ERR_MORE_DATA, false)
    else (a, MFX_ERR_NONE, true)

/-- The VPP retry loop (lines 441-454) run against the deterministic
accelerator: a warning with no output is retried after a sleep, a warning
with output is success, anything else leaves the loop.  The fuel is the
busy budget, which bounds the retries the accelerator can cause. -/
def vppRetryGo (drain : Bool) : Nat → Accel → Accel × Int × Bool
  | 0, a =>
    if MFX_ERR_NONE < (runFrameVPPAsync a drain).2.1
        ∧ (runFrameVPPAsync a drain).2.2 = true then
      ((runFrameVPPAsync a drain).1, MFX_ERR_NONE, true)
    else runFrameVPPAsync a drain
  | b + 1, a =>
    if MFX_ERR_NONE < (runFrameVPPAsync a drain).2.1
        ∧ (runFrameVPPAsync a drain).2.2 = false then
      vppRetryGo drain b (runFrameVPPAsync a drain).1
    else if MFX_ERR_NONE < (runFrameVPPAsync a drain).2.1
        ∧ (runFrameVPPAsync a drain).2.2 = true then
      ((runFrameVPPAsync a drain).1, MFX_ERR_NONE, true)
    else runFrameVPPAsync a drain

def vppRetryM (a : Accel) (drain : Bool) : Accel × Int × Bool :=
  vppRetryGo drain a.busyBudget a

/-- The encode retry loop (lines 466-482) run against the deterministic
accelerator; the explicit `MFX_ERR_NOT_ENOUGH_BUFFER` break of the source
leaves the result unchanged (see `encRetryLoop` for the faithful mirror of
the loop on arbitrary response scripts). -/
def encRetryGo (drain : Bool) : Nat → Accel → Accel × Int × Bool
  | 0, a =>
    if MFX_ERR_NONE < (encodeFrameAsync a drain).2.1
        ∧ (encodeFrameAsync a drain).2.2 = true then
      ((encodeFrameAsync a drain).1, MFX_ERR_NONE, true)
    else encodeFrameAsync a drain
  | b + 1, a =>
    if MFX_ERR_NONE < (encodeFrameAsync a drain).2.1
        ∧ (encodeFrameAsync a drain).2.2 = false then
      encRetryGo drain b (encodeFrameAsync a drain).1
    else if MFX_ERR_NONE < (encodeFrameAsync a drain).2.1
        ∧ (encodeFrameAsync a drain).2.2 = true then
      ((encodeFrameAsync a drain).1, MFX_ERR_NONE, true)
    else encodeFrameAsync a drain

def encRetryM (a : Accel) (drain : Bool) : Accel × Int × Bool :=
  encRetryGo drain a.busyBudget a

/-- The control phases of `main`: the five stage loops (lines 395, 500,
596, 673, 717), the normal final state, and the abort state every
`MSDK_CHECK_RESULT` failure leads to. -/
inductive Phase where
  | stage1
  | stage2
  | stage3
  | stage4
  | stage5
  | done
  | aborted
deriving DecidableEq

/-- The full machine state of `main` during transcoding: current phase,
accelerator state, the task pool with its FIFO head, the submission
counter, the sink, the frame counter, and the running status `sts`. -/
structure MState where
  phase : Phase
  acc : Accel
  tasks : List Task
  nFirstSyncTask : Nat
  nextId : Nat
  sink : List Nat
  nFrame : Nat
  sts : Int
deriving DecidableEq

/-- The sync-and-flush branch shared by all five stages (lines 398-414):
the wait and the write succeed, the task is recycled, the head advances,
the frame is counted, and `sts` is the write's `MFX_ERR_NONE`. -/
def flushStepM (s : MState) : MState :=
  let t := s.tasks.getD s.nFirstSyncTask Task.free
  { s with
    tasks := s.tasks.set s.nFirstSyncTask Task.free
    nFirstSyncTask := (s.nFirstSyncTask + 1) % s.tasks.length
    sink := s.sink ++ t.syncp.toList
    nFrame := s.nFrame + 1
    sts := MFX_ERR_NONE }

/-- Leaving a stage loop (lines 493-495, 589-591, 666-668, 710-712):
`MSDK_IGNORE_MFX_STS(sts, MFX_ERR_MORE_DATA)` then `MSDK_CHECK_RESULT`;
end-of-input is expected and the pipeline moves to the next stage, any
other non-success status aborts. -/
def stageExit (next : Phase) (s : MState) : MState :=
  if (if s.sts = MFX_ERR_MORE_DATA then MFX_ERR_NONE else s.sts)
      = MFX_ERR_NONE then
    { s with
      phase := next
      sts := if s.sts = MFX_ERR_MORE_DATA then MFX_ERR_NONE else s.sts }
  else
    { s with
      phase := Phase.aborted
      sts := if s.sts = MFX_ERR_MORE_DATA then MFX_ERR_NONE else s.sts }

/-- The encode submission of an iteration (lines 466-488 and the stage 2-4
copies): run the retry loop; a produced sync point occupies the claimed
slot; in Stages 1-3 an `MFX_ERR_MORE_DATA` answer (encoder buffering) is
turned back into success so the loop continues (lines 484-488), while
Stage 4 leaves it to end the drain loop. -/
def encSubmitStore (s : MState) (nTaskIdx : Nat)
    (drain convertMoreData : Bool) : MState :=
  { s with
    acc := (encRetryM s.acc drain).1
    tasks := if (encRetryM s.acc drain).2.2 then
        s.tasks.set nTaskIdx (Task.occupied s.nextId)
      else s.tasks
    nextId := if (encRetryM s.acc drain).2.2 then s.nextId + 1 else s.nextId
    sts := if convertMoreData = true
        ∧ (encRetryM s.acc drain).2.1 = MFX_ERR_MORE_DATA then
      MFX_ERR_NONE else (encRetryM s.acc drain).2.1 }

/-- The transform-then-encode tail of an iteration (lines 441-488 and the
stage 2-3 copies): run the VPP retry loop; `MFX_ERR_MORE_DATA` either
loops back for more decoder input (Stages 1-2, `continue` at lines
457-458, 554-555) or, in Stage 3 where there is no such branch (lines
634-639), breaks out of the stage via `MSDK_BREAK_ON_ERROR`;
`MFX_ERR_MORE_SURFACE` always breaks out of the stage; success proceeds
to the encode submission. -/
def vppEncBody (s : MState) (nTaskIdx : Nat) (vppDrain hasCont : Bool)
    (next : Phase) : MState :=
  if hasCont = true ∧ (vppRetryM s.acc vppDrain).2.1 = MFX_ERR_MORE_DATA then
    { s with
      acc := (vppRetryM s.acc vppDrain).1
      sts := (vppRetryM s.acc vppDrain).2.1 }
  else if (vppRetryM s.acc vppDrain).2.1 = MFX_ERR_MORE_SURFACE then
    stageExit next { s with
      acc := (vppRetryM s.acc vppDrain).1
      sts := (vppRetryM s.acc vppDrain).2.1 }
  else if (vppRetryM s.acc vppDrain).2.1 < MFX_ERR_NONE then
    stageExit next { s with
      acc := (vppRetryM s.acc vppDrain).1
      sts := (vppRetryM s.acc vppDrain).2.1 }
  else
    encSubmitStore { s with
      acc := (vppRetryM s.acc vppDrain).1
      sts := (vppRetryM s.acc vppDrain).2.1 } nTaskIdx false true

/-- The decode-and-onward tail of a Stage 1 or Stage 2 iteration
(lines 428-489, 527-585): call `DecodeFrameAsync` (feeding or draining),
treat a warning with output as success, and on success run the frame
through transform and encode. -/
def decodeBody (s : MState) (nTaskIdx : Nat) (drain : Bool)
    (next : Phase) : MState :=
  if (if MFX_ERR_NONE < (decodeFrameAsync s.acc drain).2.1
        ∧ (decodeFrameAsync s.acc drain).2.2 = true then MFX_ERR_NONE
      else (decodeFrameAsync s.acc drain).2.1) = MFX_ERR_NONE then
    vppEncBody { s with
      acc := (decodeFrameAsync s.acc drain).1
      sts := MFX_ERR_NONE } nTaskIdx false true next
  else
    { s with
      acc := (decodeFrameAsync s.acc drain).1
      sts := (decodeFrameAsync s.acc drain).2.1 }

/-- One iteration of the Stage 1 loop (lines 395-491): flush if no task is
free; otherwise read more input if the decoder asked for it (leaving the
stage at end of file, lines 419-422), then decode and process. -/
def stage1Iter (s : MState) : MState :=
  match GetFreeTaskIndex s.tasks with
  | none => flushStepM s
  | some nTaskIdx =>
    if s.sts = MFX_ERR_MORE_DATA then
      if (readBitStreamData s.acc).2 < MFX_ERR_NONE then
        stageExit Phase.stage2 { s with
          acc := (readBitStreamData s.acc).1
          sts := (readBitStreamData s.acc).2 }
      else
        decodeBody { s with
          acc := (readBitStreamData s.acc).1
          sts := (readBitStreamData s.acc).2 } nTaskIdx false Phase.stage2
    else decodeBody s nTaskIdx false Phase.stage2

/-- One iteration of the Stage 2 loop (lines 500-587): decode drain. -/
def stage2Iter (s : MState) : MState :=
  match GetFreeTaskIndex s.tasks with
  | none => flushStepM s
  | some nTaskIdx => decodeBody s nTaskIdx true Phase.stage3

/-- One iteration of the Stage 3 loop (lines 596-664): VPP drain. -/
def stage3Iter (s : MState) : MState :=
  match GetFreeTaskIndex s.tasks with
  | none => flushStepM s
  | some nTaskIdx => vppEncBody s nTaskIdx true false Phase.stage4

/-- One iteration of the Stage 4 loop (lines 673-708): encode drain; here
`MFX_ERR_MORE_DATA` is not converted, it ends the loop. -/
def stage4Iter (s : MState) : MState :=
  match GetFreeTaskIndex s.tasks with
  | none => flushStepM s
  | some nTaskIdx => encSubmitStore s nTaskIdx true false

/-- One step of the pipeline: one iteration of the current stage's loop,
or the transition when the loop's condition fails, or the Stage 5
behaviour (lines 717-734): flush while the head task has a token, then
finish. -/
def machineStep (s : MState) : MState :=
  match s.phase with
  | Phase.stage1 =>
    if stage1LoopCond s.sts then stage1Iter s else stageExit Phase.stage2 s
  | Phase.stage2 =>
    if stage2LoopCond s.sts then stage2Iter s else stageExit Phase.stage3 s
  | Phase.stage3 =>
    if stage3LoopCond s.sts then stage3Iter s else stageExit Phase.stage4 s
  | Phase.stage4 =>
    if stage4LoopCond s.sts then stage4Iter s else stageExit Phase.stage5 s
  | Phase.stage5 =>
    if (s.tasks.getD s.nFirstSyncTask Task.free).syncp.isSome then
      flushStepM s
    else { s with phase := Phase.done }
  | Phase.done => s
  | Phase.aborted => s

def stepN : Nat → MState → MState
  | 0, s => s
  | n + 1, s => stepN n (machineStep s)

/-- The machine state at the top of Stage 1 (lines 380-391): empty task
pool of size `d = AsyncDepth`, head at 0, `sts = MFX_ERR_NONE`. -/
def initMState (a : Accel) (d : Nat) : MState :=
  { phase := Phase.stage1
    acc := a
    tasks := List.replicate d Task.free
    nFirstSyncTask := 0
    nextId := 0
    sink := []
    nFrame := 0
    sts := MFX_ERR_NONE }

/-- The stage each phase hands over to when its loop ends. -/
def nextPhase : Phase → Phase
  | Phase.stage1 => Phase.stage2
  | Phase.stage2 => Phase.stage3
  | Phase.stage3 => Phase.stage4
  | Phase.stage4 => Phase.stage5
  | Phase.stage5 => Phase.done
  | Phase.done => Phase.done
  | Phase.aborted => Phase.aborted

end MediaSDK

namespace MediaSDK

/-! ### Termination measure and well-formedness of machine states -/

/-- Status weight: a pending `MFX_ERR_MORE_DATA` is about to trigger a read
or a stage exit, so it weighs less than the other statuses. -/
def stsW (sts : Int) : Nat := if sts = MFX_ERR_MORE_DATA then 0 else 1

def phaseRank : Phase → Nat
  | Phase.stage1 => 5
  | Phase.stage2 => 4
  | Phase.stage3 => 3
  | Phase.stage4 => 2
  | Phase.stage5 => 1
  | Phase.done => 0
  | Phase.aborted => 0

/-- Weighted count of the work still inside the accelerator model. -/
def accMeasure (a : Accel) : Nat :=
  a.busyBudget + 7 * a.fileChunks + 6 * (a.chunksAvail + a.decBuffered)
    + 4 * a.vppBuffered + 3 * a.encBuffered

/-- The termination measure: every machine step from a well-formed,
non-final state strictly decreases it. -/
def mMeasure (s : MState) : Nat :=
  10 * phaseRank s.phase + accMeasure s.acc
    + 2 * countOutstanding s.tasks + stsW s.sts

lemma stsW_none : stsW MFX_ERR_NONE = 1 := rfl

lemma stsW_busy : stsW MFX_WRN_DEVICE_BUSY = 1 := rfl

lemma stsW_more_data : stsW MFX_ERR_MORE_DATA = 0 := rfl

lemma stsW_le_one (sts : Int) : stsW sts ≤ 1 := by
  unfold stsW
  split_ifs <;> omega

/-- States the machine can actually be in: non-empty pool, head in range,
not aborted, `sts` one of the three statuses the deterministic run
produces, and never `MFX_ERR_MORE_DATA` at the top of the Stage 3 loop. -/
structure MWF (s : MState) : Prop where
  hlen : 0 < s.tasks.length
  hhead : s.nFirstSyncTask < s.tasks.length
  hphase : s.phase ≠ Phase.aborted
  hsts : s.sts = MFX_ERR_NONE ∨ s.sts = MFX_WRN_DEVICE_BUSY
    ∨ s.sts = MFX_ERR_MORE_DATA
  hst3 : s.phase = Phase.stage3 → s.sts ≠ MFX_ERR_MORE_DATA

/-! ### The retry loops against the deterministic accelerator -/

lemma accel_eta_zero (a : Accel) (ha : a.busyBudget = 0) :
    ({ a with busyBudget := 0 } : Accel) = a := by
  cases a
  simp_all

lemma runFrameVPPAsync_zero_not_warn (a : Accel) (drain : Bool)
    (ha : a.busyBudget = 0) :
    ¬ MFX_ERR_NONE < (runFrameVPPAsync a drain).2.1 := by
  unfold runFrameVPPAsync
  rw [if_neg (by omega)]
  split_ifs <;> norm_num [MFX_ERR_NONE, MFX_ERR_MORE_DATA]

lemma encodeFrameAsync_zero_not_warn (a : Accel) (drain : Bool)
    (ha : a.busyBudget = 0) :
    ¬ MFX_ERR_NONE < (encodeFrameAsync a drain).2.1 := by
  unfold encodeFrameAsync
  rw [if_neg (by omega)]
  split_ifs <;> norm_num [MFX_ERR_NONE, MFX_ERR_MORE_DATA]

lemma vppRetryGo_spec (drain : Bool) :
    ∀ b a, a.busyBudget = b →
      vppRetryGo drain b a
        = runFrameVPPAsync { a with busyBudget := 0 } drain := by
  intro b
  induction b with
  | zero =>
    intro a ha
    rw [accel_eta_zero a ha, vppRetryGo]
    exact if_neg (fun hc => runFrameVPPAsync_zero_not_warn a drain ha hc.1)
  | succ b ih =>
    intro a ha
    have hbusy : runFrameVPPAsync a drain
        = ({ a with busyBudget := a.busyBudget - 1 }, MFX_WRN_DEVICE_BUSY,
          false) := by
      unfold runFrameVPPAsync
      rw [if_pos (by omega)]
    rw [vppRetryGo, hbusy]
    rw [if_pos (And.intro
      (show MFX_ERR_NONE < MFX_WRN_DEVICE_BUSY by decide) rfl)]
    rw [ih { a with busyBudget := a.busyBudget - 1 } (by simp [ha])]

lemma vppRetryM_spec (a : Accel) (drain : Bool) :
    vppRetryM a drain = runFrameVPPAsync { a with busyBudget := 0 } drain :=
  vppRetryGo_spec drain a.busyBudget a rfl

lemma encRetryGo_spec (drain : Bool) :
    ∀ b a, a.busyBudget = b →
      encRetryGo drain b a
        = encodeFrameAsync { a with busyBudget := 0 } drain := by
  intro b
  induction b with
  | zero =>
    intro a ha
    rw [accel_eta_zero a ha, encRetryGo]
    exact if_neg (fun hc => encodeFrameAsync_zero_not_warn a drain ha hc.1)
  | succ b ih =>
    intro a ha
    have hbusy : encodeFrameAsync a drain
        = ({ a with busyBudget := a.busyBudget - 1 }, MFX_WRN_DEVICE_BUSY,
          false) := by
      unfold encodeFrameAsync
      rw [if_pos (by omega)]
    rw [encRetryGo, hbusy]
    rw [if_pos (And.intro
      (show MFX_ERR_NONE < MFX_WRN_DEVICE_BUSY by decide) rfl)]
    rw [ih { a with busyBudget := a.busyBudget - 1 } (by simp [ha])]

lemma encRetryM_spec (a : Accel) (drain : Bool) :
    encRetryM a drain = encodeFrameAsync { a with busyBudget := 0 } drain :=
  encRetryGo_spec drain a.busyBudget a rfl

/-! ### Counting helpers for the machine's task pool -/

lemma count_set_occupied (tasks : List Task) (i x : Nat)
    (h : GetFreeTaskIndex tasks = some i) :
    countOutstanding (tasks.set i (Task.occupied x))
      = countOutstanding tasks + 1 := by
  obtain ⟨hi, hnone, -⟩ := (getFreeTaskIndex_some_iff tasks i).mp h
  have hadd := countP_set_add (fun t => t.syncp.isSome) tasks i
    (Task.occupied x) Task.free hi
  have h1 : (fun (t : Task) => t.syncp.isSome) (tasks.getD i Task.free)
      = false := by
    show (tasks.getD i Task.free).syncp.isSome = false
    rw [hnone]
    rfl
  have h2 : (fun (t : Task) => t.syncp.isSome) (Task.occupied x) = true := rfl
  rw [h1, h2] at hadd
  simp at hadd
  unfold countOutstanding
  omega

lemma count_flush_head (tasks : List Task) (h : Nat)
    (hsome : (tasks.getD h Task.free).syncp.isSome = true)
    (hh : h < tasks.length) :
    countOutstanding (tasks.set h Task.free) + 1 = countOutstanding tasks := by
  have hadd := countP_set_add (fun t => t.syncp.isSome) tasks h Task.free
    Task.free hh
  have h1 : (fun (t : Task) => t.syncp.isSome) (tasks.getD h Task.free)
      = true := hsome
  have h2 : (fun (t : Task) => t.syncp.isSome) Task.free = false := rfl
  rw [h1, h2] at hadd
  simp at hadd
  unfold countOutstanding
  omega

/-- The flush branch from any stage: preserves well-formedness and strictly
decreases the measure, keeping the phase. -/
lemma flushStepM_full (s : MState) (hwf : MWF s)
    (hsome : (s.tasks.getD s.nFirstSyncTask Task.free).syncp.isSome = true) :
    MWF (flushStepM s) ∧ mMeasure (flushStepM s) < mMeasure s
    ∧ (flushStepM s).phase = s.phase := by
  have hc := count_flush_head s.tasks s.nFirstSyncTask hsome hwf.hhead
  refine ⟨⟨?_, ?_, ?_, ?_, ?_⟩, ?_, rfl⟩
  · show 0 < (s.tasks.set s.nFirstSyncTask Task.free).length
    simpa using hwf.hlen
  · show (s.nFirstSyncTask + 1) % s.tasks.length
        < (s.tasks.set s.nFirstSyncTask Task.free).length
    rw [List.length_set]
    exact Nat.mod_lt _ hwf.hlen
  · exact hwf.hphase
  · exact Or.inl rfl
  · intro h3
    show MFX_ERR_NONE ≠ MFX_ERR_MORE_DATA
    decide
  · show 10 * phaseRank s.phase + accMeasure s.acc
        + 2 * countOutstanding (s.tasks.set s.nFirstSyncTask Task.free)
        + stsW MFX_ERR_NONE
      < 10 * phaseRank s.phase + accMeasure s.acc
        + 2 * countOutstanding s.tasks + stsW s.sts
    have hw := stsW_le_one s.sts
    rw [stsW_none]
    omega

end MediaSDK

namespace MediaSDK

/-! ### Branch equations for the deterministic accelerator -/

lemma read_ok (a : Accel) (h : 0 < a.fileChunks) :
    readBitStreamData a
      = ({ a with
          fileChunks := a.fileChunks - 1
          chunksAvail := a.chunksAvail + 1 }, MFX_ERR_NONE) := by
  unfold readBitStreamData
  rw [if_pos h]

lemma read_end (a : Accel) (h : a.fileChunks = 0) :
    readBitStreamData a = (a, MFX_ERR_MORE_DATA) := by
  unfold readBitStreamData
  rw [if_neg (by omega)]

lemma dec_busy (a : Accel) (dr : Bool) (h : 0 < a.busyBudget) :
    decodeFrameAsync a dr
      = ({ a with busyBudget := a.busyBudget - 1 },
        MFX_WRN_DEVICE_BUSY, false) := by
  unfold decodeFrameAsync
  rw [if_pos h]

lemma dec_feed_ok (a : Accel) (hb : a.busyBudget = 0)
    (h : 0 < a.chunksAvail) :
    decodeFrameAsync a false
      = ({ a with chunksAvail := a.chunksAvail - 1 }, MFX_ERR_NONE, true) := by
  unfold decodeFrameAsync
  rw [if_neg (by omega), if_neg (by simp), if_pos h]

lemma dec_feed_end (a : Accel) (hb : a.busyBudget = 0)
    (h : a.chunksAvail = 0) :
    decodeFrameAsync a false = (a, MFX_ERR_MORE_DATA, false) := by
  unfold decodeFrameAsync
  rw [if_neg (by omega), if_neg (by simp), if_neg (by omega)]

lemma dec_drain_ok (a : Accel) (hb : a.busyBudget = 0)
    (h : 0 < a.decBuffered) :
    decodeFrameAsync a true
      = ({ a with decBuffered := a.decBuffered - 1 }, MFX_ERR_NONE, true) := by
  unfold decodeFrameAsync
  rw [if_neg (by omega), if_pos rfl, if_pos h]

lemma dec_drain_end (a : Accel) (hb : a.busyBudget = 0)
    (h : a.decBuffered = 0) :
    decodeFrameAsync a true = (a, MFX_ERR_MORE_DATA, false) := by
  unfold decodeFrameAsync
  rw [if_neg (by omega), if_pos rfl, if_neg (by omega)]

lemma vpp_feed_lookahead (a : Accel) (hb : a.busyBudget = 0)
    (h : 0 < a.vppLookahead) :
    runFrameVPPAsync a false
      = ({ a with
          vppLookahead := a.vppLookahead - 1
          vppBuffered := a.vppBuffered + 1 }, MFX_ERR_MORE_DATA, false) := by
  unfold runFrameVPPAsync
  rw [if_neg (by omega), if_neg (by simp), if_pos h]

lemma vpp_feed_ok (a : Accel) (hb : a.busyBudget = 0)
    (h : a.vppLookahead = 0) :
    runFrameVPPAsync a false = (a, MFX_ERR_NONE, true) := by
  unfold runFrameVPPAsync
  rw [if_neg (by omega), if_neg (by simp), if_neg (by omega)]

lemma vpp_drain_ok (a : Accel) (hb : a.busyBudget = 0)
    (h : 0 < a.vppBuffered) :
    runFrameVPPAsync a true
      = ({ a with vppBuffered := a.vppBuffered - 1 }, MFX_ERR_NONE, true) := by
  unfold runFrameVPPAsync
  rw [if_neg (by omega), if_pos rfl, if_pos h]

lemma vpp_drain_end (a : Accel) (hb : a.busyBudget = 0)
    (h : a.vppBuffered = 0) :
    runFrameVPPAsync a true = (a, MFX_ERR_MORE_DATA, false) := by
  unfold runFrameVPPAsync
  rw [if_neg (by omega), if_pos rfl, if_neg (by omega)]

lemma enc_feed_lookahead (a : Accel) (hb : a.busyBudget = 0)
    (h : 0 < a.encLookahead) :
    encodeFrameAsync a false
      = ({ a with
          encLookahead := a.encLookahead - 1
          encBuffered := a.encBuffered + 1 }, MFX_ERR_MORE_DATA, false) := by
  unfold encodeFrameAsync
  rw [if_neg (by omega), if_neg (by simp), if_pos h]

lemma enc_feed_ok (a : Accel) (hb : a.busyBudget = 0)
    (h : a.encLookahead = 0) :
    encodeFrameAsync a false = (a, MFX_ERR_NONE, true) := by
  unfold encodeFrameAsync
  rw [if_neg (by omega), if_neg (by simp), if_neg (by omega)]

lemma enc_drain_ok (a : Accel) (hb : a.busyBudget = 0)
    (h : 0 < a.encBuffered) :
    encodeFrameAsync a true
      = ({ a with encBuffered := a.encBuffered - 1 }, MFX_ERR_NONE, true) := by
  unfold encodeFrameAsync
  rw [if_neg (by omega), if_pos rfl, if_pos h]

lemma enc_drain_end (a : Accel) (hb : a.busyBudget = 0)
    (h : a.encBuffered = 0) :
    encodeFrameAsync a true = (a, MFX_ERR_MORE_DATA, false) := by
  unfold encodeFrameAsync
  rw [if_neg (by omega), if_pos rfl, if_neg (by omega)]

/-! ### Well-formedness builders -/

lemma MWF_same (s : MState) (acc' : Accel) (sts' : Int) (hwf : MWF s)
    (hsts' : sts' = MFX_ERR_NONE ∨ sts' = MFX_WRN_DEVICE_BUSY
      ∨ sts' = MFX_ERR_MORE_DATA)
    (h3 : s.phase = Phase.stage3 → sts' ≠ MFX_ERR_MORE_DATA) :
    MWF { s with acc := acc', sts := sts' } :=
  ⟨hwf.hlen, hwf.hhead, hwf.hphase, hsts', h3⟩

lemma MWF_store (s : MState) (acc' : Accel) (t : Task) (i n : Nat)
    (hwf : MWF s) :
    MWF { s with
        acc := acc'
        tasks := s.tasks.set i t
        nextId := n
        sts := MFX_ERR_NONE } := by
  refine ⟨?_, ?_, hwf.hphase, Or.inl rfl, ?_⟩
  · show 0 < (s.tasks.set i t).length
    simpa using hwf.hlen
  · show s.nFirstSyncTask < (s.tasks.set i t).length
    simpa using hwf.hhead
  · intro h3
    show MFX_ERR_NONE ≠ MFX_ERR_MORE_DATA
    decide

lemma MWF_exit (s : MState) (next : Phase) (acc' : Accel) (hwf : MWF s)
    (hnext : next ≠ Phase.aborted) :
    MWF { s with phase := next, acc := acc', sts := MFX_ERR_NONE } :=
  ⟨hwf.hlen, hwf.hhead, hnext, Or.inl rfl,
   fun _ => show MFX_ERR_NONE ≠ MFX_ERR_MORE_DATA by decide⟩

end MediaSDK

namespace MediaSDK

lemma mMeasure_expand (s : MState) :
    mMeasure s = 10 * phaseRank s.phase + accMeasure s.acc
      + 2 * countOutstanding s.tasks + stsW s.sts := rfl

lemma accMeasure_expand (a : Accel) :
    accMeasure a = a.busyBudget + 7 * a.fileChunks
      + 6 * (a.chunksAvail + a.decBuffered) + 4 * a.vppBuffered
      + 3 * a.encBuffered := rfl

lemma mMeasure_same_phase (s : MState) (acc' : Accel) (sts' : Int) :
    mMeasure { s with acc := acc', sts := sts' }
      = 10 * phaseRank s.phase + accMeasure acc'
        + 2 * countOutstanding s.tasks + stsW sts' := rfl

lemma mMeasure_store (s : MState) (acc' : Accel) (t : Task) (i n : Nat) :
    mMeasure { s with
        acc := acc'
        tasks := s.tasks.set i t
        nextId := n
        sts := MFX_ERR_NONE }
      = 10 * phaseRank s.phase + accMeasure acc'
        + 2 * countOutstanding (s.tasks.set i t) + 1 := rfl

lemma mMeasure_exit (s : MState) (next : Phase) (acc' : Accel) :
    mMeasure { s with phase := next, acc := acc', sts := MFX_ERR_NONE }
      = 10 * phaseRank next + accMeasure acc'
        + 2 * countOutstanding s.tasks + 1 := rfl

lemma stageExit_eq (next : Phase) (s : MState)
    (h : s.sts = MFX_ERR_NONE ∨ s.sts = MFX_ERR_MORE_DATA) :
    stageExit next s = { s with phase := next, sts := MFX_ERR_NONE } := by
  unfold stageExit
  rcases h with h | h <;> rw [h] <;> norm_num [MFX_ERR_NONE, MFX_ERR_MORE_DATA]

lemma vppEncBodyFeed_facts (s : MState) (i : Nat) (next : Phase)
    (hfree : GetFreeTaskIndex s.tasks = some i) (hwf : MWF s)
    (hph3 : s.phase ≠ Phase.stage3) (hnext : next ≠ Phase.aborted) :
    MWF (vppEncBody s i false true next)
    ∧ mMeasure (vppEncBody s i false true next) ≤ mMeasure s + 4 := by
  have h1 := stsW_le_one s.sts
  by_cases hVL : 0 < s.acc.vppLookahead
  · have hr : vppRetryM s.acc false
        = ({ s.acc with
            busyBudget := 0
            vppLookahead := s.acc.vppLookahead - 1
            vppBuffered := s.acc.vppBuffered + 1 },
          MFX_ERR_MORE_DATA, false) := by
      rw [vppRetryM_spec, vpp_feed_lookahead _ rfl (by simpa using hVL)]
    have hbody : vppEncBody s i false true next
        = { s with
            acc := { s.acc with
              busyBudget := 0
              vppLookahead := s.acc.vppLookahead - 1
              vppBuffered := s.acc.vppBuffered + 1 }
            sts := MFX_ERR_MORE_DATA } := by
      unfold vppEncBody
      rw [hr]
      norm_num [MFX_ERR_NONE, MFX_ERR_MORE_DATA, MFX_ERR_MORE_SURFACE]
    rw [hbody]
    refine ⟨MWF_same s _ _ hwf (Or.inr (Or.inr rfl))
      (fun h3 => absurd h3 hph3), ?_⟩
    rw [mMeasure_same_phase, mMeasure_expand, stsW_more_data]
    simp only [accMeasure_expand]
    omega
  · have hr : vppRetryM s.acc false
        = ({ s.acc with busyBudget := 0 }, MFX_ERR_NONE, true) := by
      rw [vppRetryM_spec, vpp_feed_ok _ rfl (by simp only []; omega)]
    by_cases hEL : 0 < s.acc.encLookahead
    · have hr2 : encRetryM ({ s.acc with busyBudget := 0 } : Accel) false
          = ({ s.acc with
              busyBudget := 0
              encLookahead := s.acc.encLookahead - 1
              encBuffered := s.acc.encBuffered + 1 },
            MFX_ERR_MORE_DATA, false) := by
        rw [encRetryM_spec, enc_feed_lookahead _ rfl (by simpa using hEL)]
      have hbody : vppEncBody s i false true next
          = { s with
              acc := { s.acc with
                busyBudget := 0
                encLookahead := s.acc.encLookahead - 1
                encBuffered := s.acc.encBuffered + 1 }
              sts := MFX_ERR_NONE } := by
        unfold vppEncBody encSubmitStore
        rw [hr]
        norm_num [hr2, MFX_ERR_NONE, MFX_ERR_MORE_DATA, MFX_ERR_MORE_SURFACE]
      rw [hbody]
      refine ⟨MWF_same s _ _ hwf (Or.inl rfl)
        (fun _ => show MFX_ERR_NONE ≠ MFX_ERR_MORE_DATA by decide), ?_⟩
      rw [mMeasure_same_phase, mMeasure_expand, stsW_none]
      simp only [accMeasure_expand]
      omega
    · have hr2 : encRetryM ({ s.acc with busyBudget := 0 } : Accel) false
          = ({ s.acc with busyBudget := 0 }, MFX_ERR_NONE, true) := by
        rw [encRetryM_spec, enc_feed_ok _ rfl (by simp only []; omega)]
      have hbody : vppEncBody s i false true next
          = { s with
              acc := { s.acc with busyBudget := 0 }
              tasks := s.tasks.set i (Task.occupied s.nextId)
              nextId := s.nextId + 1
              sts := MFX_ERR_NONE } := by
        unfold vppEncBody encSubmitStore
        rw [hr]
        norm_num [hr2, MFX_ERR_NONE, MFX_ERR_MORE_DATA, MFX_ERR_MORE_SURFACE]
      rw [hbody]
      have hcount := count_set_occupied s.tasks i s.nextId hfree
      refine ⟨MWF_store s _ _ i _ hwf, ?_⟩
      rw [mMeasure_store, mMeasure_expand, hcount]
      simp only [accMeasure_expand]
      omega

end MediaSDK

namespace MediaSDK

lemma vppEncBodyDrain_facts (s : MState) (i : Nat)
    (hfree : GetFreeTaskIndex s.tasks = some i) (hwf : MWF s)
    (hph : s.phase = Phase.stage3) (hsts1 : stsW s.sts = 1) :
    MWF (vppEncBody s i true false Phase.stage4)
    ∧ mMeasure (vppEncBody s i true false Phase.stage4) < mMeasure s := by
  by_cases hVB : 0 < s.acc.vppBuffered
  · have hr : vppRetryM s.acc true
        = ({ s.acc with
            busyBudget := 0
            vppBuffered := s.acc.vppBuffered - 1 }, MFX_ERR_NONE, true) := by
      rw [vppRetryM_spec, vpp_drain_ok _ rfl (by simpa using hVB)]
    by_cases hEL : 0 < s.acc.encLookahead
    · have hr2 : encRetryM ({ s.acc with
            busyBudget := 0
            vppBuffered := s.acc.vppBuffered - 1 } : Accel) false
          = ({ s.acc with
              busyBudget := 0
              vppBuffered := s.acc.vppBuffered - 1
              encLookahead := s.acc.encLookahead - 1
              encBuffered := s.acc.encBuffered + 1 },
            MFX_ERR_MORE_DATA, false) := by
        rw [encRetryM_spec, enc_feed_lookahead _ rfl (by simpa using hEL)]
      have hbody : vppEncBody s i true false Phase.stage4
          = { s with
              acc := { s.acc with
                busyBudget := 0
                vppBuffered := s.acc.vppBuffered - 1
                encLookahead := s.acc.encLookahead - 1
                encBuffered := s.acc.encBuffered + 1 }
              sts := MFX_ERR_NONE } := by
        unfold vppEncBody encSubmitStore
        rw [hr]
        norm_num [hr2, MFX_ERR_NONE, MFX_ERR_MORE_DATA, MFX_ERR_MORE_SURFACE]
      rw [hbody]
      refine ⟨MWF_same s _ _ hwf (Or.inl rfl)
        (fun _ => show MFX_ERR_NONE ≠ MFX_ERR_MORE_DATA by decide), ?_⟩
      rw [mMeasure_same_phase, mMeasure_expand, stsW_none, hsts1]
      simp only [accMeasure_expand]
      omega
    · have hr2 : encRetryM ({ s.acc with
            busyBudget := 0
            vppBuffered := s.acc.vppBuffered - 1 } : Accel) false
          = ({ s.acc with
              busyBudget := 0
              vppBuffered := s.acc.vppBuffered - 1 }, MFX_ERR_NONE, true) := by
        rw [encRetryM_spec, enc_feed_ok _ rfl (by simp only []; omega)]
      have hbody : vppEncBody s i true false Phase.stage4
          = { s with
              acc := { s.acc with
                busyBudget := 0
                vppBuffered := s.acc.vppBuffered - 1 }
              tasks := s.tasks.set i (Task.occupied s.nextId)
              nextId := s.nextId + 1
              sts := MFX_ERR_NONE } := by
        unfold vppEncBody encSubmitStore
        rw [hr]
        norm_num [hr2, MFX_ERR_NONE, MFX_ERR_MORE_DATA, MFX_ERR_MORE_SURFACE]
      rw [hbody]
      have hcount := count_set_occupied s.tasks i s.nextId hfree
      refine ⟨MWF_store s _ _ i _ hwf, ?_⟩
      rw [mMeasure_store, mMeasure_expand, hcount, hsts1]
      simp only [accMeasure_expand]
      omega
  · have hr : vppRetryM s.acc true
        = ({ s.acc with busyBudget := 0 }, MFX_ERR_MORE_DATA, false) := by
      rw [vppRetryM_spec, vpp_drain_end _ rfl (by simp only []; omega)]
    have hbody : vppEncBody s i true false Phase.stage4
        = { s with
            phase := Phase.stage4
            acc := { s.acc with busyBudget := 0 }
            sts := MFX_ERR_NONE } := by
      unfold vppEncBody
      rw [hr]
      norm_num [MFX_ERR_NONE, MFX_ERR_MORE_DATA, MFX_ERR_MORE_SURFACE,
        stageExit]
    rw [hbody]
    constructor
    · exact ⟨hwf.hlen, hwf.hhead, fun hab => Phase.noConfusion hab,
        Or.inl rfl, fun h3 => Phase.noConfusion h3⟩
    · rw [show mMeasure { s with
            phase := Phase.stage4
            acc := { s.acc with busyBudget := 0 }
            sts := MFX_ERR_NONE }
          = 10 * phaseRank Phase.stage4
            + accMeasure { s.acc with busyBudget := 0 }
            + 2 * countOutstanding s.tasks + 1 from rfl]
      rw [mMeasure_expand, hsts1, hph]
      simp only [accMeasure_expand]
      rw [show phaseRank Phase.stage4 = 2 from rfl,
        show phaseRank Phase.stage3 = 3 from rfl]
      omega

lemma decodeBody_facts (s : MState) (i : Nat) (dr : Bool) (next : Phase)
    (hfree : GetFreeTaskIndex s.tasks = some i) (hwf : MWF s)
    (hph3 : s.phase ≠ Phase.stage3) (hnext : next ≠ Phase.aborted)
    (hsts1 : stsW s.sts = 1) :
    MWF (decodeBody s i dr next)
    ∧ mMeasure (decodeBody s i dr next) < mMeasure s := by
  by_cases hB : 0 < s.acc.busyBudget
  · have hr : decodeFrameAsync s.acc dr
        = ({ s.acc with busyBudget := s.acc.busyBudget - 1 },
          MFX_WRN_DEVICE_BUSY, false) := dec_busy s.acc dr hB
    have hbody : decodeBody s i dr next
        = { s with
            acc := { s.acc with busyBudget := s.acc.busyBudget - 1 }
            sts := MFX_WRN_DEVICE_BUSY } := by
      unfold decodeBody
      rw [hr]
      norm_num [MFX_ERR_NONE, MFX_WRN_DEVICE_BUSY]
    rw [hbody]
    refine ⟨MWF_same s _ _ hwf (Or.inr (Or.inl rfl))
      (fun h3 => absurd h3 hph3), ?_⟩
    rw [mMeasure_same_phase, mMeasure_expand, stsW_busy, hsts1]
    simp only [accMeasure_expand]
    omega
  · cases dr with
    | false =>
      by_cases hA : 0 < s.acc.chunksAvail
      · have hr : decodeFrameAsync s.acc false
            = ({ s.acc with chunksAvail := s.acc.chunksAvail - 1 },
              MFX_ERR_NONE, true) := dec_feed_ok s.acc (by omega) hA
        have hbody : decodeBody s i false next
            = vppEncBody { s with
                acc := { s.acc with chunksAvail := s.acc.chunksAvail - 1 }
                sts := MFX_ERR_NONE } i false true next := by
          unfold decodeBody
          rw [hr]
          norm_num [MFX_ERR_NONE]
        rw [hbody]
        have hsub := vppEncBodyFeed_facts
          { s with
            acc := { s.acc with chunksAvail := s.acc.chunksAvail - 1 }
            sts := MFX_ERR_NONE } i next hfree
          (MWF_same s _ _ hwf (Or.inl rfl)
            (fun h3 => absurd h3 hph3)) hph3 hnext
        refine ⟨hsub.1, ?_⟩
        have hm := hsub.2
        have hs1 : mMeasure { s with
            acc := { s.acc with chunksAvail := s.acc.chunksAvail - 1 }
            sts := MFX_ERR_NONE } + 6 = mMeasure s := by
          rw [mMeasure_same_phase, mMeasure_expand, stsW_none, hsts1]
          simp only [accMeasure_expand]
          omega
        omega
      · have hr : decodeFrameAsync s.acc false
            = (s.acc, MFX_ERR_MORE_DATA, false) :=
          dec_feed_end s.acc (by omega) (by omega)
        have hbody : decodeBody s i false next
            = { s with acc := s.acc, sts := MFX_ERR_MORE_DATA } := by
          unfold decodeBody
          rw [hr]
          norm_num [MFX_ERR_NONE, MFX_ERR_MORE_DATA]
        rw [hbody]
        refine ⟨MWF_same s _ _ hwf (Or.inr (Or.inr rfl))
          (fun h3 => absurd h3 hph3), ?_⟩
        rw [mMeasure_same_phase, mMeasure_expand, stsW_more_data, hsts1]
        omega
    | true =>
      by_cases hD : 0 < s.acc.decBuffered
      · have hr : decodeFrameAsync s.acc true
            = ({ s.acc with decBuffered := s.acc.decBuffered - 1 },
              MFX_ERR_NONE, true) := dec_drain_ok s.acc (by omega) hD
        have hbody : decodeBody s i true next
            = vppEncBody { s with
                acc := { s.acc with decBuffered := s.acc.decBuffered - 1 }
                sts := MFX_ERR_NONE } i false true next := by
          unfold decodeBody
          rw [hr]
          norm_num [MFX_ERR_NONE]
        rw [hbody]
        have hsub := vppEncBodyFeed_facts
          { s with
            acc := { s.acc with decBuffered := s.acc.decBuffered - 1 }
            sts := MFX_ERR_NONE } i next hfree
          (MWF_same s _ _ hwf (Or.inl rfl)
            (fun h3 => absurd h3 hph3)) hph3 hnext
        refine ⟨hsub.1, ?_⟩
        have hm := hsub.2
        have hs1 : mMeasure { s with
            acc := { s.acc with decBuffered := s.acc.decBuffered - 1 }
            sts := MFX_ERR_NONE } + 6 = mMeasure s := by
          rw [mMeasure_same_phase, mMeasure_expand, stsW_none, hsts1]
          simp only [accMeasure_expand]
          omega
        omega
      · have hr : decodeFrameAsync s.acc true
            = (s.acc, MFX_ERR_MORE_DATA, false) :=
          dec_drain_end s.acc (by omega) (by omega)
        have hbody : decodeBody s i true next
            = { s with acc := s.acc, sts := MFX_ERR_MORE_DATA } := by
          unfold decodeBody
          rw [hr]
          norm_num [MFX_ERR_NONE, MFX_ERR_MORE_DATA]
        rw [hbody]
        refine ⟨MWF_same s _ _ hwf (Or.inr (Or.inr rfl))
          (fun h3 => absurd h3 hph3), ?_⟩
        rw [mMeasure_same_phase, mMeasure_expand, stsW_more_data, hsts1]
        omega

end MediaSDK

namespace MediaSDK

lemma mMeasure_exit_composite (s : MState) (next : Phase) (sts0 : Int) :
    mMeasure { { s with sts := sts0 } with
        phase := next
        sts := MFX_ERR_NONE }
      = 10 * phaseRank next + accMeasure s.acc
        + 2 * countOutstanding s.tasks + 1 := rfl

lemma stage1_facts (s : MState) (hwf : MWF s) (hph : s.phase = Phase.stage1) :
    MWF (machineStep s) ∧ mMeasure (machineStep s) < mMeasure s := by
  have hph3 : s.phase ≠ Phase.stage3 := by
    rw [hph]
    exact fun h => Phase.noConfusion h
  have hcond : stage1LoopCond s.sts := by
    rcases hwf.hsts with h | h | h <;> rw [h]
    · exact Or.inl (le_refl _)
    · exact Or.inl (by decide)
    · exact Or.inr (Or.inl rfl)
  have hms : machineStep s = stage1Iter s := by
    unfold machineStep
    rw [hph, if_pos hcond]
  rw [hms]
  cases hfree : GetFreeTaskIndex s.tasks with
  | none =>
    have hsome := (getFreeTaskIndex_none_iff s.tasks).mp hfree
      s.nFirstSyncTask hwf.hhead
    have hbody : stage1Iter s = flushStepM s := by
      unfold stage1Iter
      rw [hfree]
    rw [hbody]
    have hf := flushStepM_full s hwf hsome
    exact ⟨hf.1, hf.2.1⟩
  | some i =>
    by_cases hmd : s.sts = MFX_ERR_MORE_DATA
    · by_cases hF : 0 < s.acc.fileChunks
      · have hbody : stage1Iter s
            = decodeBody { s with
                acc := { s.acc with
                  fileChunks := s.acc.fileChunks - 1
                  chunksAvail := s.acc.chunksAvail + 1 }
                sts := MFX_ERR_NONE } i false Phase.stage2 := by
          unfold stage1Iter
          rw [hfree]
          dsimp only
          rw [if_pos hmd, read_ok s.acc hF]
          norm_num [MFX_ERR_NONE]
        rw [hbody]
        have hsub := decodeBody_facts
          { s with
            acc := { s.acc with
              fileChunks := s.acc.fileChunks - 1
              chunksAvail := s.acc.chunksAvail + 1 }
            sts := MFX_ERR_NONE } i false Phase.stage2 hfree
          (MWF_same s _ _ hwf (Or.inl rfl) (fun h3 => absurd h3 hph3))
          hph3 (fun h => Phase.noConfusion h) stsW_none
        refine ⟨hsub.1, ?_⟩
        have hm := hsub.2
        have hs1 : mMeasure { s with
            acc := { s.acc with
              fileChunks := s.acc.fileChunks - 1
              chunksAvail := s.acc.chunksAvail + 1 }
            sts := MFX_ERR_NONE } = mMeasure s := by
          rw [mMeasure_same_phase, mMeasure_expand, stsW_none,
            show stsW s.sts = 0 from by rw [hmd]; exact stsW_more_data]
          simp only [accMeasure_expand]
          omega
        omega
      · have hbody : stage1Iter s
            = stageExit Phase.stage2 { s with sts := MFX_ERR_MORE_DATA } := by
          unfold stage1Iter
          rw [hfree]
          dsimp only
          rw [if_pos hmd, read_end s.acc (by omega)]
          norm_num [MFX_ERR_NONE, MFX_ERR_MORE_DATA]
        rw [hbody, stageExit_eq _ _ (Or.inr rfl)]
        constructor
        · exact ⟨hwf.hlen, hwf.hhead, fun hab => Phase.noConfusion hab,
            Or.inl rfl, fun h3 => Phase.noConfusion h3⟩
        · rw [mMeasure_exit_composite, mMeasure_expand, hph]
          rw [show phaseRank Phase.stage2 = 4 from rfl,
            show phaseRank Phase.stage1 = 5 from rfl]
          omega
    · have hbody : stage1Iter s = decodeBody s i false Phase.stage2 := by
        unfold stage1Iter
        rw [hfree]
        dsimp only
        rw [if_neg hmd]
      rw [hbody]
      exact decodeBody_facts s i false Phase.stage2 hfree hwf hph3
        (fun h => Phase.noConfusion h)
        (by unfold stsW; rw [if_neg hmd])

lemma stage2_facts (s : MState) (hwf : MWF s) (hph : s.phase = Phase.stage2) :
    MWF (machineStep s) ∧ mMeasure (machineStep s) < mMeasure s := by
  have hph3 : s.phase ≠ Phase.stage3 := by
    rw [hph]
    exact fun h => Phase.noConfusion h
  by_cases hcond : stage2LoopCond s.sts
  · have hms : machineStep s = stage2Iter s := by
      unfold machineStep
      rw [hph, if_pos hcond]
    rw [hms]
    cases hfree : GetFreeTaskIndex s.tasks with
    | none =>
      have hsome := (getFreeTaskIndex_none_iff s.tasks).mp hfree
        s.nFirstSyncTask hwf.hhead
      have hbody : stage2Iter s = flushStepM s := by
        unfold stage2Iter
        rw [hfree]
      rw [hbody]
      have hf := flushStepM_full s hwf hsome
      exact ⟨hf.1, hf.2.1⟩
    | some i =>
      have hnmd : s.sts ≠ MFX_ERR_MORE_DATA := by
        intro h
        rcases hcond with hc | hc <;> rw [h] at hc
        · exact absurd hc (by decide)
        · exact absurd hc (by decide)
      have hbody : stage2Iter s = decodeBody s i true Phase.stage3 := by
        unfold stage2Iter
        rw [hfree]
      rw [hbody]
      exact decodeBody_facts s i true Phase.stage3 hfree hwf hph3
        (fun h => Phase.noConfusion h)
        (by unfold stsW; rw [if_neg hnmd])
  · have hmd : s.sts = MFX_ERR_MORE_DATA := by
      rcases hwf.hsts with h | h | h
      · exact absurd (by rw [h]; exact Or.inl (le_refl _)) hcond
      · exact absurd (by rw [h]; exact Or.inl (by decide)) hcond
      · exact h
    have hms : machineStep s = stageExit Phase.stage3 s := by
      unfold machineStep
      rw [hph, if_neg hcond]
    rw [hms, stageExit_eq _ _ (Or.inr hmd)]
    constructor
    · exact ⟨hwf.hlen, hwf.hhead, fun hab => Phase.noConfusion hab,
        Or.inl rfl,
        fun _ => show MFX_ERR_NONE ≠ MFX_ERR_MORE_DATA by decide⟩
    · rw [show mMeasure { s with phase := Phase.stage3, sts := MFX_ERR_NONE }
          = 10 * phaseRank Phase.stage3 + accMeasure s.acc
            + 2 * countOutstanding s.tasks + 1 from rfl]
      rw [mMeasure_expand, hph]
      rw [show phaseRank Phase.stage3 = 3 from rfl,
        show phaseRank Phase.stage2 = 4 from rfl]
      omega

lemma stage3_facts (s : MState) (hwf : MWF s) (hph : s.phase = Phase.stage3) :
    MWF (machineStep s) ∧ mMeasure (machineStep s) < mMeasure s := by
  have hnmd := hwf.hst3 hph
  have hsts1 : stsW s.sts = 1 := by
    unfold stsW
    rw [if_neg hnmd]
  have hcond : stage3LoopCond s.sts := by
    rcases hwf.hsts with h | h | h
    · rw [h]; exact Or.inl (le_refl _)
    · rw [h]; exact Or.inl (by decide)
    · exact absurd h hnmd
  have hms : machineStep s = stage3Iter s := by
    unfold machineStep
    rw [hph, if_pos hcond]
  rw [hms]
  cases hfree : GetFreeTaskIndex s.tasks with
  | none =>
    have hsome := (getFreeTaskIndex_none_iff s.tasks).mp hfree
      s.nFirstSyncTask hwf.hhead
    have hbody : stage3Iter s = flushStepM s := by
      unfold stage3Iter
      rw [hfree]
    rw [hbody]
    have hf := flushStepM_full s hwf hsome
    exact ⟨hf.1, hf.2.1⟩
  | some i =>
    have hbody : stage3Iter s = vppEncBody s i true false Phase.stage4 := by
      unfold stage3Iter
      rw [hfree]
    rw [hbody]
    exact vppEncBodyDrain_facts s i hfree hwf hph hsts1

lemma stage4_facts (s : MState) (hwf : MWF s) (hph : s.phase = Phase.stage4) :
    MWF (machineStep s) ∧ mMeasure (machineStep s) < mMeasure s := by
  have hph3 : s.phase ≠ Phase.stage3 := by
    rw [hph]
    exact fun h => Phase.noConfusion h
  by_cases hcond : stage4LoopCond s.sts
  · have hnmd : s.sts ≠ MFX_ERR_MORE_DATA := by
      intro h
      rw [stage4LoopCond, h] at hcond
      exact absurd hcond (by decide)
    have hsts1 : stsW s.sts = 1 := by
      unfold stsW
      rw [if_neg hnmd]
    have hms : machineStep s = stage4Iter s := by
      unfold machineStep
      rw [hph, if_pos hcond]
    rw [hms]
    cases hfree : GetFreeTaskIndex s.tasks with
    | none =>
      have hsome := (getFreeTaskIndex_none_iff s.tasks).mp hfree
        s.nFirstSyncTask hwf.hhead
      have hbody : stage4Iter s = flushStepM s := by
        unfold stage4Iter
        rw [hfree]
      rw [hbody]
      have hf := flushStepM_full s hwf hsome
      exact ⟨hf.1, hf.2.1⟩
    | some i =>
      have hbody : stage4Iter s = encSubmitStore s i true false := by
        unfold stage4Iter
        rw [hfree]
      rw [hbody]
      by_cases hEB : 0 < s.acc.encBuffered
      · have hr : encRetryM s.acc true
            = ({ s.acc with
                busyBudget := 0
                encBuffered := s.acc.encBuffered - 1 },
              MFX_ERR_NONE, true) := by
          rw [encRetryM_spec, enc_drain_ok _ rfl (by simpa using hEB)]
        have hbody2 : encSubmitStore s i true false
            = { s with
                acc := { s.acc with
                  busyBudget := 0
                  encBuffered := s.acc.encBuffered - 1 }
                tasks := s.tasks.set i (Task.occupied s.nextId)
                nextId := s.nextId + 1
                sts := MFX_ERR_NONE } := by
          unfold encSubmitStore
          rw [hr]
          norm_num [MFX_ERR_NONE, MFX_ERR_MORE_DATA]
        rw [hbody2]
        have hcount := count_set_occupied s.tasks i s.nextId hfree
        refine ⟨MWF_store s _ _ i _ hwf, ?_⟩
        rw [mMeasure_store, mMeasure_expand, hcount, hsts1]
        simp only [accMeasure_expand]
        omega
      · have hr : encRetryM s.acc true
            = ({ s.acc with busyBudget := 0 },
              MFX_ERR_MORE_DATA, false) := by
          rw [encRetryM_spec, enc_drain_end _ rfl (by simp only []; omega)]
        have hbody2 : encSubmitStore s i true false
            = { s with
                acc := { s.acc with busyBudget := 0 }
                sts := MFX_ERR_MORE_DATA } := by
          unfold encSubmitStore
          rw [hr]
          norm_num [MFX_ERR_NONE, MFX_ERR_MORE_DATA]
        rw [hbody2]
        refine ⟨MWF_same s _ _ hwf (Or.inr (Or.inr rfl))
          (fun h3 => absurd h3 hph3), ?_⟩
        rw [mMeasure_same_phase, mMeasure_expand, stsW_more_data, hsts1]
        simp only [accMeasure_expand]
        omega
  · have hmd : s.sts = MFX_ERR_MORE_DATA := by
      rcases hwf.hsts with h | h | h
      · exact absurd (by rw [stage4LoopCond, h]) hcond
      · exact absurd (by rw [stage4LoopCond, h]; decide) hcond
      · exact h
    have hms : machineStep s = stageExit Phase.stage5 s := by
      unfold machineStep
      rw [hph, if_neg hcond]
    rw [hms, stageExit_eq _ _ (Or.inr hmd)]
    constructor
    · exact ⟨hwf.hlen, hwf.hhead, fun hab => Phase.noConfusion hab,
        Or.inl rfl, fun h3 => Phase.noConfusion h3⟩
    · rw [show mMeasure { s with phase := Phase.stage5, sts := MFX_ERR_NONE }
          = 10 * phaseRank Phase.stage5 + accMeasure s.acc
            + 2 * countOutstanding s.tasks + 1 from rfl]
      rw [mMeasure_expand, hph]
      rw [show phaseRank Phase.stage5 = 1 from rfl,
        show phaseRank Phase.stage4 = 2 from rfl]
      omega

lemma stage5_facts (s : MState) (hwf : MWF s) (hph : s.phase = Phase.stage5) :
    MWF (machineStep s) ∧ mMeasure (machineStep s) < mMeasure s := by
  cases hsome : (s.tasks.getD s.nFirstSyncTask Task.free).syncp.isSome with
  | true =>
    have hms : machineStep s = flushStepM s := by
      unfold machineStep
      rw [hph, if_pos hsome]
    rw [hms]
    have hf := flushStepM_full s hwf hsome
    exact ⟨hf.1, hf.2.1⟩
  | false =>
    have hcondn : ¬ ((s.tasks.getD s.nFirstSyncTask Task.free).syncp.isSome
        = true) := by
      rw [hsome]
      exact Bool.false_ne_true
    have hms : machineStep s = { s with phase := Phase.done } := by
      unfold machineStep
      rw [hph, if_neg hcondn]
    rw [hms]
    constructor
    · exact ⟨hwf.hlen, hwf.hhead, fun hab => Phase.noConfusion hab,
        hwf.hsts, fun h3 => Phase.noConfusion h3⟩
    · rw [show mMeasure { s with phase := Phase.done }
          = 10 * phaseRank Phase.done + accMeasure s.acc
            + 2 * countOutstanding s.tasks + stsW s.sts from rfl]
      rw [mMeasure_expand, hph]
      rw [show phaseRank Phase.done = 0 from rfl,
        show phaseRank Phase.stage5 = 1 from rfl]
      omega

lemma step_facts (s : MState) (hwf : MWF s) (hnd : s.phase ≠ Phase.done) :
    MWF (machineStep s) ∧ mMeasure (machineStep s) < mMeasure s := by
  cases hph : s.phase with
  | stage1 => exact stage1_facts s hwf hph
  | stage2 => exact stage2_facts s hwf hph
  | stage3 => exact stage3_facts s hwf hph
  | stage4 => exact stage4_facts s hwf hph
  | stage5 => exact stage5_facts s hwf hph
  | done => exact absurd hph hnd
  | aborted => exact absurd hph hwf.hphase

lemma reach_done (m : Nat) : ∀ s, MWF s → mMeasure s ≤ m →
    ∃ n, (stepN n s).phase = Phase.done := by
  induction m with
  | zero =>
    intro s hwf hm
    by_cases hph : s.phase = Phase.done
    · exact ⟨0, hph⟩
    · have := (step_facts s hwf hph).2
      omega
  | succ m ih =>
    intro s hwf hm
    by_cases hph : s.phase = Phase.done
    · exact ⟨0, hph⟩
    · obtain ⟨hwf', hlt⟩ := step_facts s hwf hph
      obtain ⟨n, hn⟩ := ih (machineStep s) hwf' (by omega)
      exact ⟨n + 1, hn⟩

lemma MWF_init (a : Accel) (d : Nat) (hd : 0 < d) : MWF (initMState a d) := by
  refine ⟨?_, ?_, fun hab => Phase.noConfusion hab, Or.inl rfl,
    fun h3 => Phase.noConfusion h3⟩
  · show 0 < (List.replicate d Task.free).length
    simpa using hd
  · show 0 < (List.replicate d Task.free).length
    simpa using hd

end MediaSDK

namespace MediaSDK

lemma stageExit_phase (next : Phase) (t : MState) :
    (stageExit next t).phase = next
    ∨ (stageExit next t).phase = Phase.aborted := by
  unfold stageExit
  split_ifs <;> first | exact Or.inl rfl | exact Or.inr rfl

lemma vppEncBody_phase (t : MState) (i : Nat) (d c : Bool) (next : Phase) :
    (vppEncBody t i d c next).phase = t.phase
    ∨ (vppEncBody t i d c next).phase = next
    ∨ (vppEncBody t i d c next).phase = Phase.aborted := by
  unfold vppEncBody
  split_ifs with h1 h2 h3
  · exact Or.inl rfl
  · rcases stageExit_phase next _ with h | h
    · exact Or.inr (Or.inl h)
    · exact Or.inr (Or.inr h)
  · rcases stageExit_phase next _ with h | h
    · exact Or.inr (Or.inl h)
    · exact Or.inr (Or.inr h)
  · exact Or.inl rfl

lemma decodeBody_phase (t : MState) (i : Nat) (dr : Bool) (next : Phase) :
    (decodeBody t i dr next).phase = t.phase
    ∨ (decodeBody t i dr next).phase = next
    ∨ (decodeBody t i dr next).phase = Phase.aborted := by
  unfold decodeBody
  split_ifs <;>
    first
      | exact vppEncBody_phase _ i false true next
      | exact Or.inl rfl

lemma stage1Iter_phase (t : MState) :
    (stage1Iter t).phase = t.phase
    ∨ (stage1Iter t).phase = Phase.stage2
    ∨ (stage1Iter t).phase = Phase.aborted := by
  unfold stage1Iter
  cases hfree : GetFreeTaskIndex t.tasks with
  | none => exact Or.inl rfl
  | some i =>
    dsimp only
    split_ifs with h1 h2
    · rcases stageExit_phase Phase.stage2 _ with h | h
      · exact Or.inr (Or.inl h)
      · exact Or.inr (Or.inr h)
    · exact decodeBody_phase _ i false Phase.stage2
    · exact decodeBody_phase t i false Phase.stage2

lemma stage2Iter_phase (t : MState) :
    (stage2Iter t).phase = t.phase
    ∨ (stage2Iter t).phase = Phase.stage3
    ∨ (stage2Iter t).phase = Phase.aborted := by
  unfold stage2Iter
  cases hfree : GetFreeTaskIndex t.tasks with
  | none => exact Or.inl rfl
  | some i => exact decodeBody_phase t i true Phase.stage3

lemma stage3Iter_phase (t : MState) :
    (stage3Iter t).phase = t.phase
    ∨ (stage3Iter t).phase = Phase.stage4
    ∨ (stage3Iter t).phase = Phase.aborted := by
  unfold stage3Iter
  cases hfree : GetFreeTaskIndex t.tasks with
  | none => exact Or.inl rfl
  | some i => exact vppEncBody_phase t i true false Phase.stage4

lemma stage4Iter_phase (t : MState) :
    (stage4Iter t).phase = t.phase
    ∨ (stage4Iter t).phase = Phase.aborted := by
  unfold stage4Iter
  cases hfree : GetFreeTaskIndex t.tasks with
  | none => exact Or.inl rfl
  | some i => exact Or.inl rfl

/-- The machine only ever stays in its phase, moves to the next phase in
the fixed Stage 1 → 2 → 3 → 4 → 5 → done order, or aborts. -/
lemma machineStep_phase (t : MState) :
    (machineStep t).phase = t.phase
    ∨ (machineStep t).phase = nextPhase t.phase
    ∨ (machineStep t).phase = Phase.aborted := by
  cases hph : t.phase with
  | stage1 =>
    have hms : machineStep t
        = if stage1LoopCond t.sts then stage1Iter t
          else stageExit Phase.stage2 t := by
      unfold machineStep
      rw [hph]
    rw [hms]
    split_ifs with hc
    · rcases stage1Iter_phase t with h | h | h
      · exact Or.inl (h.trans hph)
      · exact Or.inr (Or.inl h)
      · exact Or.inr (Or.inr h)
    · rcases stageExit_phase Phase.stage2 t with h | h
      · exact Or.inr (Or.inl h)
      · exact Or.inr (Or.inr h)
  | stage2 =>
    have hms : machineStep t
        = if stage2LoopCond t.sts then stage2Iter t
          else stageExit Phase.stage3 t := by
      unfold machineStep
      rw [hph]
    rw [hms]
    split_ifs with hc
    · rcases stage2Iter_phase t with h | h | h
      · exact Or.inl (h.trans hph)
      · exact Or.inr (Or.inl h)
      · exact Or.inr (Or.inr h)
    · rcases stageExit_phase Phase.stage3 t with h | h
      · exact Or.inr (Or.inl h)
      · exact Or.inr (Or.inr h)
  | stage3 =>
    have hms : machineStep t
        = if stage3LoopCond t.sts then stage3Iter t
          else stageExit Phase.stage4 t := by
      unfold machineStep
      rw [hph]
    rw [hms]
    split_ifs with hc
    · rcases stage3Iter_phase t with h | h | h
      · exact Or.inl (h.trans hph)
      · exact Or.inr (Or.inl h)
      · exact Or.inr (Or.inr h)
    · rcases stageExit_phase Phase.stage4 t with h | h
      · exact Or.inr (Or.inl h)
      · exact Or.inr (Or.inr h)
  | stage4 =>
    have hms : machineStep t
        = if stage4LoopCond t.sts then stage4Iter t
          else stageExit Phase.stage5 t := by
      unfold machineStep
      rw [hph]
    rw [hms]
    split_ifs with hc
    · rcases stage4Iter_phase t with h | h
      · exact Or.inl (h.trans hph)
      · exact Or.inr (Or.inr h)
    · rcases stageExit_phase Phase.stage5 t with h | h
      · exact Or.inr (Or.inl h)
      · exact Or.inr (Or.inr h)
  | stage5 =>
    have hms : machineStep t
        = if (t.tasks.getD t.nFirstSyncTask Task.free).syncp.isSome then
            flushStepM t
          else { t with phase := Phase.done } := by
      unfold machineStep
      rw [hph]
    rw [hms]
    split_ifs with hc
    · exact Or.inl hph
    · exact Or.inr (Or.inl rfl)
  | done =>
    have hms : machineStep t = t := by
      unfold machineStep
      rw [hph]
    rw [hms]
    exact Or.inl hph
  | aborted =>
    have hms : machineStep t = t := by
      unfold machineStep
      rw [hph]
    rw [hms]
    exact Or.inl hph

/-- Claim C4: with a finite input, finitely many busy answers and
succeeding waits, the pipeline reaches `done` after finitely many steps,
and every phase transition follows the fixed feeding, decode-drain,
transform-drain, encode-drain, task-flush order. -/
theorem pipeline_terminates (a : Accel) (d : Nat) (hd : 0 < d) :
    (∃ n, (stepN n (initMState a d)).phase = Phase.done)
    ∧ (∀ t : MState, (machineStep t).phase = t.phase
        ∨ (machineStep t).phase = nextPhase t.phase
        ∨ (machineStep t).phase = Phase.aborted) :=
  ⟨reach_done (mMeasure (initMState a d)) (initMState a d)
    (MWF_init a d hd) (le_refl _),
   machineStep_phase⟩

theorem pipeline_terminates_witness :
    0 < 1
    ∧ ((∃ n, (stepN n (initMState ⟨2, 3, 0, 1, 1, 0, 1, 0⟩ 1)).phase
          = Phase.done)
      ∧ (∀ t : MState, (machineStep t).phase = t.phase
          ∨ (machineStep t).phase = nextPhase t.phase
          ∨ (machineStep t).phase = Phase.aborted)) :=
  ⟨by decide, pipeline_terminates ⟨2, 3, 0, 1, 1, 0, 1, 0⟩ 1 (by decide)⟩

/-- Claim C8: with `asyncDepth = 1`, a 3-frame input and an accelerator
that answers Ready immediately (no busy answers, no internal buffering),
the pipeline reaches `done` having written exactly the three frames, in
submission order, and the frame counter reads 3. -/
theorem three_frame_scenario :
    (stepN 40 (initMState ⟨0, 3, 0, 0, 0, 0, 0, 0⟩ 1)).phase = Phase.done
    ∧ (stepN 40 (initMState ⟨0, 3, 0, 0, 0, 0, 0, 0⟩ 1)).sink = [0, 1, 2]
    ∧ (stepN 40 (initMState ⟨0, 3, 0, 0, 0, 0, 0, 0⟩ 1)).nFrame = 3 := by
  exact ⟨rfl, rfl, rfl⟩

end MediaSDK
